import Mathlib

/-!
# Bus booking system — verification of the seat-inventory storage layer

Shallow embedding of the in-memory storage layer (`MemStorage` in
`server/storage.ts`) of the Bus_booking_system repository, together with
proofs and refutations of the frozen specification claims.

JavaScript `Map` objects are modelled as insertion-ordered association
lists: `set` replaces the value of an existing key in place and otherwise
appends, `get` looks the key up, and `values()` is the list of values in
insertion order — exactly the observable behaviour the TypeScript code
relies on (`Array.from(map.values())`).

Methods that can `throw` are modelled as returning
`Except String α × MemStorage`: the state component carries every mutation
performed before the `throw`, as in JavaScript, where an exception does not
roll anything back.

`new Date()` (read once in `createBooking`) is modelled by a `now` field of
the state that no operation changes: the clock is an input of the model.
-/

/-- JS `Map.get`. -/
def mapGet {κ α : Type} [DecidableEq κ] (m : List (κ × α)) (k : κ) : Option α :=
  (m.find? (fun p => p.1 = k)).map Prod.snd

/-- JS `Map.set`: replace the value of an existing key in place, else append. -/
def mapSet {κ α : Type} [DecidableEq κ] : List (κ × α) → κ → α → List (κ × α)
  | [], k, v => [(k, v)]
  | (k', v') :: rest, k, v =>
    if k' = k then (k, v) :: rest else (k', v') :: mapSet rest k v

/-- JS `Map.delete`: remove the entry of the key, report whether it was there. -/
def mapDelete {κ α : Type} [DecidableEq κ] : List (κ × α) → κ → Bool × List (κ × α)
  | [], _ => (false, [])
  | (k', v') :: rest, k =>
    if k' = k then (true, rest)
    else
      let r := mapDelete rest k
      (r.1, (k', v') :: r.2)

/-- JS `Array.from(map.values())`. -/
def mapValues {κ α : Type} (m : List (κ × α)) : List α := m.map Prod.snd

/-! ## Records of `shared/schema.ts` -/

structure User where
  id : Nat
  username : String
  password : String
  email : String
  fullName : String
  phone : Option String
  isAdmin : Bool
  deriving DecidableEq, Repr

structure InsertUser where
  username : String
  password : String
  email : String
  fullName : String
  phone : Option String
  isAdmin : Bool
  deriving DecidableEq, Repr

structure City where
  id : Nat
  name : String
  deriving DecidableEq, Repr

structure InsertCity where
  name : String
  deriving DecidableEq, Repr

structure Bus where
  id : Nat
  name : String
  type : String
  fromCityId : Nat
  toCityId : Nat
  departureTime : String
  arrivalTime : String
  duration : String
  price : Int
  totalSeats : Int
  amenities : List String
  rating : Int
  reviewCount : Int
  deriving DecidableEq, Repr

structure InsertBus where
  name : String
  type : String
  fromCityId : Nat
  toCityId : Nat
  departureTime : String
  arrivalTime : String
  duration : String
  price : Int
  totalSeats : Int
  amenities : List String
  rating : Int
  reviewCount : Int
  deriving DecidableEq, Repr

structure SeatLayout where
  id : Nat
  busId : Nat
  seatNumber : String
  rowPosition : Nat
  columnPosition : Nat
  isVisible : Bool
  deriving DecidableEq, Repr

structure InsertSeatLayout where
  busId : Nat
  seatNumber : String
  rowPosition : Nat
  columnPosition : Nat
  isVisible : Bool
  deriving DecidableEq, Repr

structure Booking where
  id : Nat
  userId : Nat
  busId : Nat
  travelDate : String
  bookingDate : Nat
  status : String
  totalAmount : Int
  paymentStatus : String
  deriving DecidableEq, Repr

structure InsertBooking where
  userId : Nat
  busId : Nat
  travelDate : String
  status : String
  totalAmount : Int
  paymentStatus : String
  deriving DecidableEq, Repr

structure BookingDetail where
  id : Nat
  bookingId : Nat
  seatNumber : String
  deriving DecidableEq, Repr

structure Trip where
  id : Nat
  busId : Nat
  date : String
  availableSeats : Int
  deriving DecidableEq, Repr

structure TripSeatAvailability where
  tripId : Nat
  seatNumber : String
  isAvailable : Bool
  deriving DecidableEq, Repr

/-! ## Result shapes of `server/storage.ts` -/

structure SeatAvailability where
  seatNumber : String
  isAvailable : Bool
  rowPosition : Nat
  columnPosition : Nat
  isVisible : Bool
  deriving DecidableEq, Repr

structure BusWithCities extends Bus where
  fromCity : City
  toCity : City
  deriving DecidableEq, Repr

structure BookingWithDetails extends Booking where
  bus : BusWithCities
  fromCity : City
  toCity : City
  seats : List String
  deriving DecidableEq, Repr

/-! ## The `MemStorage` state -/

structure MemStorage where
  users : List (Nat × User)
  cities : List (Nat × City)
  buses : List (Nat × Bus)
  seatLayouts : List (Nat × SeatLayout)
  bookings : List (Nat × Booking)
  bookingDetails : List (Nat × BookingDetail)
  trips : List (Nat × Trip)
  tripSeatAvailability : List (String × TripSeatAvailability)
  userIdCounter : Nat
  cityIdCounter : Nat
  busIdCounter : Nat
  seatLayoutIdCounter : Nat
  bookingIdCounter : Nat
  bookingDetailIdCounter : Nat
  tripIdCounter : Nat
  now : Nat
  deriving DecidableEq, Repr

/-- The field values set by the `MemStorage` constructor before `seedData`. -/
def emptyStorage (now : Nat) : MemStorage :=
  { users := [], cities := [], buses := [], seatLayouts := []
  , bookings := [], bookingDetails := [], trips := [], tripSeatAvailability := []
  , userIdCounter := 1, cityIdCounter := 1, busIdCounter := 1
  , seatLayoutIdCounter := 1, bookingIdCounter := 1, bookingDetailIdCounter := 1
  , tripIdCounter := 1, now := now }

/-! ## Methods of `MemStorage` (server/storage.ts)

Read-only catalogue getters that no claim depends on (`getAllCities`,
`searchBuses`, `getUserBookings`, ...) are omitted; every method that reads
or writes booking / trip / seat state is embedded. -/

/-- The map key `` `${tripId}-${seatNumber}` `` used by `tripSeatAvailability`. -/
def tsaKey (tripId : Nat) (seatNumber : String) : String :=
  toString tripId ++ "-" ++ seatNumber

/-- `MemStorage.createUser`. -/
def createUser (s : MemStorage) (iu : InsertUser) : User × MemStorage :=
  let id := s.userIdCounter
  let user : User :=
    { id := id, username := iu.username, password := iu.password, email := iu.email
    , fullName := iu.fullName, phone := iu.phone, isAdmin := iu.isAdmin }
  (user, { s with userIdCounter := id + 1, users := mapSet s.users id user })

/-- `MemStorage.createCity`. -/
def createCity (s : MemStorage) (ic : InsertCity) : City × MemStorage :=
  let id := s.cityIdCounter
  let city : City := { id := id, name := ic.name }
  (city, { s with cityIdCounter := id + 1, cities := mapSet s.cities id city })

/-- `MemStorage.createSeatLayout`. -/
def createSeatLayout (s : MemStorage) (isl : InsertSeatLayout) : SeatLayout × MemStorage :=
  let id := s.seatLayoutIdCounter
  let sl : SeatLayout :=
    { id := id, busId := isl.busId, seatNumber := isl.seatNumber
    , rowPosition := isl.rowPosition, columnPosition := isl.columnPosition
    , isVisible := isl.isVisible }
  (sl, { s with seatLayoutIdCounter := id + 1, seatLayouts := mapSet s.seatLayouts id sl })

/-- The seat layouts generated by `MemStorage.createDefaultSeatLayout`:
6 rows; rows 1–5 iterate columns 0–3 skipping the aisle column 2 (column 3
becomes seat letter C), row 6 has 5 seats A–E; the visibility exceptions of
the source are applied verbatim. -/
def defaultSeatSpecs (busId : Nat) : List InsertSeatLayout :=
  (List.range' 1 6).flatMap (fun row =>
    if row == 6 then
      (List.range 5).map (fun col =>
        { busId := busId
        , seatNumber := toString row ++ String.singleton (Char.ofNat (65 + col))
        , rowPosition := row, columnPosition := col, isVisible := true })
    else
      (List.range 4).filterMap (fun col =>
        if col == 2 then none
        else
          let seatNumber :=
            if col > 2 then toString row ++ String.singleton (Char.ofNat (65 + col - 1))
            else toString row ++ String.singleton (Char.ofNat (65 + col))
          let isVisible :=
            !((row == 1 && (col == 2 || col == 3)) || (row == 3 && col == 0) ||
              (row == 4 && (col == 0 || col == 1)))
          some { busId := busId, seatNumber := seatNumber, rowPosition := row
               , columnPosition := col, isVisible := isVisible }))

/-- `MemStorage.createDefaultSeatLayout`. -/
def createDefaultSeatLayout (s : MemStorage) (busId : Nat) : MemStorage :=
  (defaultSeatSpecs busId).foldl (fun s spec => (createSeatLayout s spec).2) s

/-- `MemStorage.createBus` (also creates the default seat layout). -/
def createBus (s : MemStorage) (ib : InsertBus) : Bus × MemStorage :=
  let id := s.busIdCounter
  let bus : Bus :=
    { id := id, name := ib.name, type := ib.type, fromCityId := ib.fromCityId
    , toCityId := ib.toCityId, departureTime := ib.departureTime
    , arrivalTime := ib.arrivalTime, duration := ib.duration, price := ib.price
    , totalSeats := ib.totalSeats, amenities := ib.amenities, rating := ib.rating
    , reviewCount := ib.reviewCount }
  let s1 := { s with busIdCounter := id + 1, buses := mapSet s.buses id bus }
  (bus, createDefaultSeatLayout s1 id)

/-- `MemStorage.getBus`: `ok none` models the `undefined` return for a missing
bus; the missing-city `throw` is the error case. -/
def getBus (s : MemStorage) (id : Nat) : Except String (Option BusWithCities) :=
  match mapGet s.buses id with
  | none => Except.ok none
  | some bus =>
    match mapGet s.cities bus.fromCityId, mapGet s.cities bus.toCityId with
    | some fromCity, some toCity =>
      Except.ok (some { toBus := bus, fromCity := fromCity, toCity := toCity })
    | _, _ => Except.error ("City not found for bus " ++ toString bus.id)

/-- `MemStorage.updateBus`. -/
def updateBus (s : MemStorage) (id : Nat) (ib : InsertBus) : Option Bus × MemStorage :=
  if (mapGet s.buses id).isSome then
    let bus : Bus :=
      { id := id, name := ib.name, type := ib.type, fromCityId := ib.fromCityId
      , toCityId := ib.toCityId, departureTime := ib.departureTime
      , arrivalTime := ib.arrivalTime, duration := ib.duration, price := ib.price
      , totalSeats := ib.totalSeats, amenities := ib.amenities, rating := ib.rating
      , reviewCount := ib.reviewCount }
    (some bus, { s with buses := mapSet s.buses id bus })
  else (none, s)

/-- `MemStorage.deleteBus`. -/
def deleteBus (s : MemStorage) (id : Nat) : Bool × MemStorage :=
  let r := mapDelete s.buses id
  (r.1, { s with buses := r.2 })

/-- `MemStorage.getBusSeatLayout`. -/
def getBusSeatLayout (s : MemStorage) (busId : Nat) : List SeatLayout :=
  (mapValues s.seatLayouts).filter (fun sl => sl.busId == busId)

/-- The trip lookup `Array.from(this.trips.values()).find(t => t.busId === busId && t.date === date)`
repeated in `getSeatAvailability`, `createBooking` and `cancelBooking`. -/
def findTrip (s : MemStorage) (busId : Nat) (date : String) : Option Trip :=
  (mapValues s.trips).find? (fun t => t.busId == busId && t.date == date)

/-- The booked-seat set computed inside `getSeatAvailability`: every seat of
every detail of every confirmed booking for this bus and date. -/
def bookedSeatsFor (s : MemStorage) (busId : Nat) (date : String) : List String :=
  (mapValues s.bookings).foldl (fun acc b =>
    if b.busId == busId && b.travelDate == date && b.status == "confirmed" then
      acc ++ ((mapValues s.bookingDetails).filter (fun d => d.bookingId == b.id)).map
        (fun d => d.seatNumber)
    else acc) []

/-- One row of the `getSeatAvailability` response: a missing
`tripSeatAvailability` entry counts as available (`?.isAvailable !== false`),
and a seat in the booked-seat set is reported unavailable. -/
def seatAvailabilityRow (s : MemStorage) (tripId : Nat) (bookedSeats : List String)
    (seat : SeatLayout) : SeatAvailability :=
  { seatNumber := seat.seatNumber
  , isAvailable :=
      (match mapGet s.tripSeatAvailability (tsaKey tripId seat.seatNumber) with
       | none => true
       | some a => a.isAvailable) && !(bookedSeats.contains seat.seatNumber)
  , rowPosition := seat.rowPosition
  , columnPosition := seat.columnPosition
  , isVisible := seat.isVisible }

/-- The response-building tail of `getSeatAvailability`. -/
def buildSeatAvailability (s : MemStorage) (tripId : Nat) (busId : Nat) (date : String)
    (seatLayout : List SeatLayout) : List SeatAvailability :=
  seatLayout.map (seatAvailabilityRow s tripId (bookedSeatsFor s busId date))

/-- The body of the seat-availability write loops: set the
`tripSeatAvailability` entry of one seat of one trip. -/
def setTsa (tripId : Nat) (avail : Bool) (s : MemStorage) (seatNumber : String) : MemStorage :=
  let entry : TripSeatAvailability :=
    { tripId := tripId, seatNumber := seatNumber, isAvailable := avail }
  { s with tripSeatAvailability :=
      mapSet s.tripSeatAvailability (tsaKey tripId seatNumber) entry }

/-- The new-trip branch of `getSeatAvailability`: record the trip (counter
started at `bus.totalSeats`) and one `isAvailable: true` entry per layout
seat. -/
def instantiateTrip (s : MemStorage) (busId : Nat) (date : String) (bus : BusWithCities)
    (seatLayout : List SeatLayout) : MemStorage :=
  let trip : Trip := { id := s.tripIdCounter, busId := busId, date := date
                     , availableSeats := bus.totalSeats }
  let s1 := { s with tripIdCounter := s.tripIdCounter + 1,
                     trips := mapSet s.trips trip.id trip }
  (seatLayout.map (fun seat => seat.seatNumber)).foldl (setTsa trip.id true) s1

/-- `MemStorage.getSeatAvailability`: lazily creates the trip (available
seats initialised from `bus.totalSeats`, one availability entry per layout
seat) and reports per-seat availability. -/
def getSeatAvailability (s : MemStorage) (busId : Nat) (date : String) :
    Except String (List SeatAvailability) × MemStorage :=
  let seatLayout := getBusSeatLayout s busId
  match findTrip s busId date with
  | some trip => (Except.ok (buildSeatAvailability s trip.id busId date seatLayout), s)
  | none =>
    match getBus s busId with
    | Except.error e => (Except.error e, s)
    | Except.ok none => (Except.error ("Bus not found with id " ++ toString busId), s)
    | Except.ok (some bus) =>
      let s2 := instantiateTrip s busId date bus seatLayout
      (Except.ok (buildSeatAvailability s2 s.tripIdCounter busId date seatLayout), s2)

/-- `MemStorage.getBookingWithDetails`. -/
def getBookingWithDetails (s : MemStorage) (booking : Booking) :
    Except String BookingWithDetails :=
  match getBus s booking.busId with
  | Except.error e => Except.error e
  | Except.ok none => Except.error ("Bus not found for booking " ++ toString booking.id)
  | Except.ok (some bus) =>
    let details := (mapValues s.bookingDetails).filter (fun d => d.bookingId == booking.id)
    Except.ok { toBooking := booking, bus := bus, fromCity := bus.fromCity
              , toCity := bus.toCity, seats := details.map (fun d => d.seatNumber) }

/-- The body of the detail-creation loop of `createBooking`. -/
def addDetail (bookingId : Nat) (s : MemStorage) (seatNumber : String) : MemStorage :=
  let detailId := s.bookingDetailIdCounter
  let detail : BookingDetail :=
    { id := detailId, bookingId := bookingId, seatNumber := seatNumber }
  { s with bookingDetailIdCounter := detailId + 1,
           bookingDetails := mapSet s.bookingDetails detailId detail }

/-- The `Booking` record `{ ...insertBooking, id, bookingDate: new Date() }`
assembled at the top of `createBooking`. -/
def bookingOf (s : MemStorage) (ib : InsertBooking) : Booking :=
  { id := s.bookingIdCounter, userId := ib.userId, busId := ib.busId
  , travelDate := ib.travelDate, bookingDate := s.now, status := ib.status
  , totalAmount := ib.totalAmount, paymentStatus := ib.paymentStatus }

/-- The trip-and-availability phase of `createBooking`: if a trip for the
booking's key exists, decrement its counter by the seat-list length and mark
each listed seat unavailable; otherwise do nothing. -/
def applyTripUpdate (seats : List String) (busId : Nat) (travelDate : String)
    (s : MemStorage) : MemStorage :=
  match findTrip s busId travelDate with
  | none => s
  | some trip =>
    let trip' := { trip with availableSeats := trip.availableSeats - (seats.length : Int) }
    let s' := { s with trips := mapSet s.trips trip.id trip' }
    seats.foldl (setTsa trip.id false) s'

/-- State after the booking-record and detail-record writes of
`createBooking`. -/
def cbDetailsState (s : MemStorage) (ib : InsertBooking) (seats : List String) : MemStorage :=
  let s1 := { s with bookingIdCounter := s.bookingIdCounter + 1,
                     bookings := mapSet s.bookings s.bookingIdCounter (bookingOf s ib) }
  seats.foldl (addDetail s.bookingIdCounter) s1

/-- The final state of `createBooking`. -/
def cbState (s : MemStorage) (ib : InsertBooking) (seats : List String) : MemStorage :=
  applyTripUpdate seats ib.busId ib.travelDate (cbDetailsState s ib seats)

/-- `MemStorage.createBooking`: records the booking and its details
unconditionally, then — only if a trip for `(busId, travelDate)` exists —
decrements its counter by the seat-list length and marks each listed seat
unavailable. -/
def createBooking (s : MemStorage) (ib : InsertBooking) (seats : List String) :
    Except String BookingWithDetails × MemStorage :=
  (getBookingWithDetails (cbState s ib seats) (bookingOf s ib), cbState s ib seats)

/-- The trip-and-availability phase of `cancelBooking`: if a trip for the
booking's key exists, increment its counter by the number of details and
mark each detail's seat available; otherwise do nothing. -/
def cancelTripUpdate (details : List BookingDetail) (busId : Nat) (travelDate : String)
    (s : MemStorage) : MemStorage :=
  match findTrip s busId travelDate with
  | none => s
  | some trip =>
    let trip' := { trip with availableSeats := trip.availableSeats + (details.length : Int) }
    let s' := { s with trips := mapSet s.trips trip.id trip' }
    details.foldl (fun s d => setTsa trip.id true s d.seatNumber) s'

/-- The `this.bookings.set(id, booking)` write of `cancelBooking`. -/
def markCancelled (s : MemStorage) (id : Nat) (booking : Booking) : MemStorage :=
  { s with bookings := mapSet s.bookings id booking }

/-- The final state of a successful `cancelBooking id` whose looked-up
booking, already re-statused to cancelled, is `booking`. -/
def cancelState (s : MemStorage) (id : Nat) (booking : Booking) : MemStorage :=
  let s1 := markCancelled s id booking
  let details := (mapValues s1.bookingDetails).filter (fun d => d.bookingId == booking.id)
  cancelTripUpdate details booking.busId booking.travelDate s1

/-- `MemStorage.cancelBooking`: throws only for a missing booking; otherwise
sets the status to cancelled, and — if a trip for `(busId, travelDate)`
exists — increments its counter by the number of the booking's details and
marks each detail's seat available again. -/
def cancelBooking (s : MemStorage) (id : Nat) : Except String BookingWithDetails × MemStorage :=
  match mapGet s.bookings id with
  | none => (Except.error ("Booking not found with id " ++ toString id), s)
  | some booking0 =>
    let booking := { booking0 with status := "cancelled" }
    (getBookingWithDetails (cancelState s id booking) booking, cancelState s id booking)

/-! ## Seed data and the constructed storage -/

/-- `MemStorage.seedData`: the five cities and five buses created by the
constructor. -/
def seedData (s : MemStorage) : MemStorage :=
  let r1 := createCity s { name := "Bangalore, Karnataka" }
  let bangalore := r1.1
  let r2 := createCity r1.2 { name := "Hyderabad, Telangana" }
  let hyderabad := r2.1
  let r3 := createCity r2.2 { name := "Chennai, Tamil Nadu" }
  let chennai := r3.1
  let r4 := createCity r3.2 { name := "Mumbai, Maharashtra" }
  let mumbai := r4.1
  let r5 := createCity r4.2 { name := "Vijayawada, Andhra Pradesh" }
  let vijayawada := r5.1
  let b1 := createBus r5.2
    { name := "Karnataka Express", type := "Luxury", fromCityId := bangalore.id
    , toCityId := hyderabad.id, departureTime := "07:30", arrivalTime := "14:15"
    , duration := "6h 45m", price := 4500, totalSeats := 30
    , amenities := ["wifi", "ac", "refreshments"], rating := 450, reviewCount := 120 }
  let b2 := createBus b1.2
    { name := "Telangana Travels", type := "Standard", fromCityId := bangalore.id
    , toCityId := hyderabad.id, departureTime := "09:00", arrivalTime := "16:30"
    , duration := "7h 30m", price := 2850, totalSeats := 40
    , amenities := ["ac"], rating := 310, reviewCount := 85 }
  let b3 := createBus b2.2
    { name := "Tamil Nadu Superfast", type := "Luxury", fromCityId := chennai.id
    , toCityId := bangalore.id, departureTime := "08:00", arrivalTime := "14:30"
    , duration := "6h 30m", price := 5200, totalSeats := 25
    , amenities := ["wifi", "ac", "refreshments", "entertainment"]
    , rating := 470, reviewCount := 95 }
  let b4 := createBus b3.2
    { name := "Maharashtra Travels", type := "Standard", fromCityId := mumbai.id
    , toCityId := hyderabad.id, departureTime := "18:00", arrivalTime := "08:30"
    , duration := "14h 30m", price := 8500, totalSeats := 35
    , amenities := ["wifi", "ac", "refreshments"], rating := 390, reviewCount := 42 }
  let b5 := createBus b4.2
    { name := "Andhra Pradesh Express", type := "Luxury", fromCityId := vijayawada.id
    , toCityId := bangalore.id, departureTime := "19:30", arrivalTime := "05:45"
    , duration := "10h 15m", price := 9900, totalSeats := 22
    , amenities := ["wifi", "ac", "refreshments", "entertainment", "sleeper"]
    , rating := 480, reviewCount := 65 }
  b5.2

/-- The exported `storage = new MemStorage()` instance (clock fixed at 0). -/
def initState : MemStorage := seedData (emptyStorage 0)

/-! ## Operation alphabet and execution

One constructor per state-touching public storage method; `step` discards
the returned value and keeps the state, `runOps` folds a call sequence. -/

inductive Op : Type where
  | createUser (iu : InsertUser)
  | createCity (ic : InsertCity)
  | createBus (ib : InsertBus)
  | updateBus (id : Nat) (ib : InsertBus)
  | deleteBus (id : Nat)
  | createSeatLayout (isl : InsertSeatLayout)
  | getSeatAvailability (busId : Nat) (date : String)
  | createBooking (ib : InsertBooking) (seats : List String)
  | cancelBooking (id : Nat)
  deriving Repr

def step (s : MemStorage) : Op → MemStorage
  | Op.createUser iu => (createUser s iu).2
  | Op.createCity ic => (createCity s ic).2
  | Op.createBus ib => (createBus s ib).2
  | Op.updateBus id ib => (updateBus s id ib).2
  | Op.deleteBus id => (deleteBus s id).2
  | Op.createSeatLayout isl => (createSeatLayout s isl).2
  | Op.getSeatAvailability busId date => (getSeatAvailability s busId date).2
  | Op.createBooking ib seats => (createBooking s ib seats).2
  | Op.cancelBooking id => (cancelBooking s id).2

def runOps (s : MemStorage) (ops : List Op) : MemStorage :=
  ops.foldl step s

/-! ## Observation helpers used in claim statements -/

/-- The availability the `getSeatAvailability` response reports for one seat
(`none` when the call throws or the seat is not in the layout). -/
def reportedAvail (s : MemStorage) (busId : Nat) (date : String) (seat : String) :
    Option Bool :=
  match (getSeatAvailability s busId date).1 with
  | Except.ok rows => (rows.find? (fun r => r.seatNumber == seat)).map (fun r => r.isAvailable)
  | Except.error _ => none

/-- The number of seats the `getSeatAvailability` response reports available. -/
def reportedAvailCount (s : MemStorage) (busId : Nat) (date : String) : Option Nat :=
  match (getSeatAvailability s busId date).1 with
  | Except.ok rows => some (rows.filter (fun r => r.isAvailable)).length
  | Except.error _ => none

/-- The stored `availableSeats` counter of the trip of `(busId, date)`. -/
def tripAvailOf (s : MemStorage) (busId : Nat) (date : String) : Option Int :=
  (findTrip s busId date).map (fun t => t.availableSeats)

/-- The seat numbers currently assigned to a booking id. -/
def bookingSeats (s : MemStorage) (bookingId : Nat) : List String :=
  ((mapValues s.bookingDetails).filter (fun d => d.bookingId == bookingId)).map
    (fun d => d.seatNumber)

/-- Whether `getBus` succeeds with an actual bus. -/
def busOk (e : Except String (Option BusWithCities)) : Bool :=
  match e with
  | Except.ok (some _) => true
  | _ => false

/-- Whether an `Except` result is a success. -/
def isOk {α : Type} (e : Except String α) : Bool :=
  match e with
  | Except.ok _ => true
  | Except.error _ => false

/-- The thrown message of a failed result. -/
def errMsg {α : Type} (e : Except String α) : Option String :=
  match e with
  | Except.ok _ => none
  | Except.error m => some m

/-- Boolean check: no two trips of the state share a `(busId, date)` key. -/
def tripKeyUniqueB (s : MemStorage) : Bool :=
  (mapValues s.trips).all (fun t1 =>
    (mapValues s.trips).all (fun t2 =>
      !(t1.busId == t2.busId && t1.date == t2.date) || decide (t1 = t2)))

/-- The association-list entries that the detail-creation loop of
`createBooking` appends: one per listed seat, with consecutive ids. -/
def newDetails (bookingId : Nat) : Nat → List String → List (Nat × BookingDetail)
  | _, [] => []
  | start, sn :: rest =>
    (start, { id := start, bookingId := bookingId, seatNumber := sn }) ::
      newDetails bookingId (start + 1) rest

/-- Well-formedness of the trips map: entries keyed by the trip id, keys
distinct, and at most one trip per `(busId, date)` pair. Holds in every
state the storage can reach. -/
def tripsOk (l : List (Nat × Trip)) : Prop :=
  (∀ p ∈ l, p.2.id = p.1) ∧ (l.map Prod.fst).Nodup ∧
  (∀ p ∈ l, ∀ q ∈ l, p.2.busId = q.2.busId → p.2.date = q.2.date → p = q)

/-- Id-freshness and well-keyedness invariants of the booking state. Hold in
every state the storage can reach (ids are handed out by counters that only
grow). -/
def idInv (s : MemStorage) : Prop :=
  tripsOk s.trips ∧
  (∀ p ∈ s.bookings, p.2.id = p.1) ∧
  (∀ p ∈ s.bookings, p.1 < s.bookingIdCounter) ∧
  (∀ p ∈ s.bookingDetails, p.2.bookingId < s.bookingIdCounter) ∧
  (∀ p ∈ s.bookingDetails, p.1 < s.bookingDetailIdCounter)

instance (l : List (Nat × Trip)) : Decidable (tripsOk l) := by
  unfold tripsOk
  infer_instance

instance (s : MemStorage) : Decidable (idInv s) := by
  unfold idInv
  infer_instance

/-! ## Concrete scenario used by several claims -/

def d0 : String := "2025-06-01"

/-- First availability query for bus 1 on `d0`: creates trip 1. -/
def st0 : MemStorage := (getSeatAvailability initState 1 d0).2

def ibA : InsertBooking :=
  { userId := 1, busId := 1, travelDate := d0, status := "confirmed"
  , totalAmount := 4500, paymentStatus := "paid" }

/-- Booking 1: seat 2B on trip 1. -/
def st1 : MemStorage := (createBooking st0 ibA ["2B"]).2

/-- Seeded bus 1 with its cities, as `getBus` returns it. -/
def bus1 : BusWithCities :=
  { toBus :=
      { id := 1, name := "Karnataka Express", type := "Luxury", fromCityId := 1
      , toCityId := 2, departureTime := "07:30", arrivalTime := "14:15"
      , duration := "6h 45m", price := 4500, totalSeats := 30
      , amenities := ["wifi", "ac", "refreshments"], rating := 450
      , reviewCount := 120 }
  , fromCity := { id := 1, name := "Bangalore, Karnataka" }
  , toCity := { id := 2, name := "Hyderabad, Telangana" } }

/-! ## Association-list (JS `Map`) lemmas -/

theorem mapSet_cons_eq {κ α : Type} [DecidableEq κ] {k₁ k : κ} (v₁ : α) (rest : List (κ × α))
    (v : α) (h : k₁ = k) : mapSet ((k₁, v₁) :: rest) k v = (k, v) :: rest := by
  simp [mapSet, h]

theorem mapSet_cons_ne {κ α : Type} [DecidableEq κ] {k₁ k : κ} (v₁ : α) (rest : List (κ × α))
    (v : α) (h : k₁ ≠ k) :
    mapSet ((k₁, v₁) :: rest) k v = (k₁, v₁) :: mapSet rest k v := by
  simp [mapSet, h]

theorem mapGet_cons_eq {κ α : Type} [DecidableEq κ] {k₁ k : κ} (v₁ : α) (m : List (κ × α))
    (h : k₁ = k) : mapGet ((k₁, v₁) :: m) k = some v₁ := by
  simp [mapGet, List.find?_cons, h]

theorem mapGet_cons_ne {κ α : Type} [DecidableEq κ] {k₁ k : κ} (v₁ : α) (m : List (κ × α))
    (h : k₁ ≠ k) : mapGet ((k₁, v₁) :: m) k = mapGet m k := by
  simp [mapGet, List.find?_cons, h]

theorem mapGet_mapSet_self {κ α : Type} [DecidableEq κ] (m : List (κ × α)) (k : κ) (v : α) :
    mapGet (mapSet m k v) k = some v := by
  induction m with
  | nil => simp [mapSet, mapGet]
  | cons p rest ih =>
    obtain ⟨k₁, v₁⟩ := p
    by_cases h : k₁ = k
    · rw [mapSet_cons_eq _ _ _ h, mapGet_cons_eq _ _ rfl]
    · rw [mapSet_cons_ne _ _ _ h, mapGet_cons_ne _ _ h]
      exact ih

theorem mapGet_mapSet_ne {κ α : Type} [DecidableEq κ] (m : List (κ × α)) (k k' : κ) (v : α)
    (h : k' ≠ k) : mapGet (mapSet m k v) k' = mapGet m k' := by
  induction m with
  | nil => simp [mapSet, mapGet, List.find?_cons, Ne.symm h]
  | cons p rest ih =>
    obtain ⟨k₁, v₁⟩ := p
    by_cases h₁ : k₁ = k
    · have hk₁' : k₁ ≠ k' := by rw [h₁]; exact Ne.symm h
      rw [mapSet_cons_eq _ _ _ h₁, mapGet_cons_ne _ _ (Ne.symm h), mapGet_cons_ne _ _ hk₁']
    · by_cases h₂ : k₁ = k'
      · rw [mapSet_cons_ne _ _ _ h₁, mapGet_cons_eq _ _ h₂, mapGet_cons_eq _ _ h₂]
      · rw [mapSet_cons_ne _ _ _ h₁, mapGet_cons_ne _ _ h₂, mapGet_cons_ne _ _ h₂]
        exact ih

theorem mapSet_eq_append {κ α : Type} [DecidableEq κ] (m : List (κ × α)) (k : κ) (v : α)
    (h : ∀ p ∈ m, p.1 ≠ k) : mapSet m k v = m ++ [(k, v)] := by
  induction m with
  | nil => rfl
  | cons p rest ih =>
    obtain ⟨k₁, v₁⟩ := p
    have hk₁ : k₁ ≠ k := h (k₁, v₁) (by simp)
    rw [mapSet_cons_ne _ _ _ hk₁, List.cons_append]
    exact congrArg _ (ih (fun p hp => h p (by simp [hp])))

theorem mem_mapSet {κ α : Type} [DecidableEq κ] {m : List (κ × α)} {k : κ} {v : α}
    {q : κ × α} (h : q ∈ mapSet m k v) : q ∈ m ∨ q = (k, v) := by
  induction m with
  | nil => simpa [mapSet] using h
  | cons p rest ih =>
    obtain ⟨k₁, v₁⟩ := p
    by_cases h₁ : k₁ = k
    · rw [mapSet_cons_eq _ _ _ h₁] at h
      rcases List.mem_cons.mp h with h2 | h2
      · exact Or.inr h2
      · exact Or.inl (List.mem_cons_of_mem _ h2)
    · rw [mapSet_cons_ne _ _ _ h₁] at h
      rcases List.mem_cons.mp h with h2 | h2
      · exact Or.inl (by simp [h2])
      · rcases ih h2 with h' | h'
        · exact Or.inl (List.mem_cons_of_mem _ h')
        · exact Or.inr h'

theorem mapSet_map_fst_of_mem {κ α : Type} [DecidableEq κ] {m : List (κ × α)} {k : κ}
    (v : α) (h : k ∈ m.map Prod.fst) :
    (mapSet m k v).map Prod.fst = m.map Prod.fst := by
  induction m with
  | nil => simp at h
  | cons p rest ih =>
    obtain ⟨k₁, v₁⟩ := p
    by_cases h₁ : k₁ = k
    · rw [mapSet_cons_eq _ _ _ h₁]; simp [h₁]
    · have hm : k ∈ rest.map Prod.fst := by
        rcases List.mem_map.mp h with ⟨p', hp', hfst⟩
        rcases List.mem_cons.mp hp' with h' | h'
        · exact absurd (by rw [h'] at hfst; exact hfst) h₁
        · exact hfst ▸ List.mem_map_of_mem Prod.fst h'
      rw [mapSet_cons_ne _ _ _ h₁]
      simp [ih hm]

theorem mem_mapSet_of_mem_keys {κ α : Type} [DecidableEq κ] {m : List (κ × α)} {k : κ}
    {v : α} {q : κ × α} (hND : (m.map Prod.fst).Nodup) (hk : k ∈ m.map Prod.fst)
    (h : q ∈ mapSet m k v) : (q ∈ m ∧ q.1 ≠ k) ∨ q = (k, v) := by
  induction m with
  | nil => simp at hk
  | cons p rest ih =>
    obtain ⟨k₁, v₁⟩ := p
    simp only [List.map_cons, List.nodup_cons] at hND
    by_cases h₁ : k₁ = k
    · rw [mapSet_cons_eq _ _ _ h₁] at h
      rcases List.mem_cons.mp h with h2 | h2
      · exact Or.inr h2
      · refine Or.inl ⟨List.mem_cons_of_mem _ h2, ?_⟩
        intro hq
        apply hND.1
        rw [h₁, ← hq]
        exact List.mem_map_of_mem Prod.fst h2
    · have hk' : k ∈ rest.map Prod.fst := by
        rcases List.mem_map.mp hk with ⟨p', hp', hfst⟩
        rcases List.mem_cons.mp hp' with h' | h'
        · exact absurd (by rw [h'] at hfst; exact hfst) h₁
        · exact hfst ▸ List.mem_map_of_mem Prod.fst h'
      rw [mapSet_cons_ne _ _ _ h₁] at h
      rcases List.mem_cons.mp h with h2 | h2
      · refine Or.inl ⟨by simp [h2], ?_⟩
        simpa [h2] using h₁
      · rcases ih hND.2 hk' h2 with ⟨h', hne⟩ | h'
        · exact Or.inl ⟨List.mem_cons_of_mem _ h', hne⟩
        · exact Or.inr h'

theorem find?_values_mapSet_of_none {κ : Type} [DecidableEq κ] {m : List (κ × Trip)}
    {p : Trip → Bool} {k : κ} {v : Trip} (hfind : (mapValues m).find? p = none)
    (hp : p v = true) : (mapValues (mapSet m k v)).find? p = some v := by
  induction m with
  | nil => simp [mapSet, mapValues, List.find?_cons, hp]
  | cons q rest ih =>
    obtain ⟨k₁, v₁⟩ := q
    have hall := List.find?_eq_none.mp hfind
    have hv₁ : p v₁ = false := by
      have := hall v₁ (by simp [mapValues])
      simpa using this
    have hrest : (mapValues rest).find? p = none :=
      List.find?_eq_none.mpr (fun x hx => hall x (by simp [mapValues] at hx ⊢; exact Or.inr hx))
    by_cases h₁ : k₁ = k
    · rw [mapSet_cons_eq _ _ _ h₁]
      simp [mapValues, List.find?_cons, hp]
    · rw [mapSet_cons_ne _ _ _ h₁]
      simpa [mapValues, List.find?_cons, hv₁] using ih hrest

/-- Updating the entry of the trip that `find?` locates, with a replacement
that still satisfies the predicate, makes `find?` return the replacement. -/
theorem find?_values_mapSet_of_found {m : List (Nat × Trip)} {p : Trip → Bool} {t t' : Trip}
    (hWK : ∀ q ∈ m, q.2.id = q.1) (hND : (m.map Prod.fst).Nodup)
    (hfind : (mapValues m).find? p = some t) (hp : p t' = true) :
    (mapValues (mapSet m t.id t')).find? p = some t' := by
  induction m with
  | nil => simp [mapValues] at hfind
  | cons q rest ih =>
    obtain ⟨k, v⟩ := q
    simp only [List.map_cons, List.nodup_cons] at hND
    simp only [mapValues, List.map_cons, List.find?_cons] at hfind
    rcases hpv : p v with _ | _
    · rw [hpv] at hfind
      have ht : t ∈ mapValues rest := List.mem_of_find?_eq_some hfind
      obtain ⟨⟨k₂, t₂⟩, hmem, ht₂⟩ := List.mem_map.mp ht
      have hk₂ : t.id = k₂ := by
        have hw := hWK (k₂, t₂) (List.mem_cons_of_mem _ hmem)
        simp only at hw ht₂
        rw [ht₂] at hw
        exact hw
      have hkne : k ≠ t.id := by
        intro hkt
        apply hND.1
        rw [hkt, hk₂]
        exact List.mem_map_of_mem Prod.fst hmem
      have ihr := ih (fun q hq => hWK q (List.mem_cons_of_mem _ hq)) hND.2 hfind
      rw [mapSet_cons_ne _ _ _ hkne]
      simpa [mapValues, List.find?_cons, hpv] using ihr
    · rw [hpv] at hfind
      have hvt : v = t := by simpa using hfind
      have hkt : k = t.id := by
        have hw := hWK (k, v) (by simp)
        simp only at hw
        rw [hvt] at hw
        exact hw.symm
      rw [← hkt, mapSet_cons_eq _ _ _ rfl]
      simp [mapValues, List.find?_cons, hp]

/-- A fold whose step leaves an observation unchanged leaves it unchanged. -/
theorem foldl_preserve {σ α β : Type} (g : σ → β) (f : σ → α → σ) (l : List α) (s : σ)
    (h : ∀ s x, g (f s x) = g s) : g (l.foldl f s) = g s := by
  induction l generalizing s with
  | nil => rfl
  | cons a l ih => rw [List.foldl_cons, ih, h]

theorem mapSet_append_last {κ α : Type} [DecidableEq κ] (l : List (κ × α)) (k : κ)
    (v0 v : α) (h : ∀ p ∈ l, p.1 ≠ k) : mapSet (l ++ [(k, v0)]) k v = l ++ [(k, v)] := by
  induction l with
  | nil => simp [mapSet]
  | cons p rest ih =>
    obtain ⟨k₁, v₁⟩ := p
    have hk₁ : k₁ ≠ k := h (k₁, v₁) (by simp)
    rw [List.cons_append, mapSet_cons_ne _ _ _ hk₁, ih (fun p hp => h p (by simp [hp]))]
    rfl

theorem mapGet_append_last {κ α : Type} [DecidableEq κ] (l : List (κ × α)) (k : κ) (v : α)
    (h : ∀ p ∈ l, p.1 ≠ k) : mapGet (l ++ [(k, v)]) k = some v := by
  rw [← mapSet_eq_append l k v h, mapGet_mapSet_self]

/-! ## Frame lemmas: which state fields each write step leaves alone -/

@[simp] theorem setTsa_trips (t : Nat) (b : Bool) (s : MemStorage) (sn : String) :
    (setTsa t b s sn).trips = s.trips := rfl

@[simp] theorem setTsa_bookings (t : Nat) (b : Bool) (s : MemStorage) (sn : String) :
    (setTsa t b s sn).bookings = s.bookings := rfl

@[simp] theorem setTsa_bookingDetails (t : Nat) (b : Bool) (s : MemStorage) (sn : String) :
    (setTsa t b s sn).bookingDetails = s.bookingDetails := rfl

@[simp] theorem setTsa_seatLayouts (t : Nat) (b : Bool) (s : MemStorage) (sn : String) :
    (setTsa t b s sn).seatLayouts = s.seatLayouts := rfl

@[simp] theorem setTsa_buses (t : Nat) (b : Bool) (s : MemStorage) (sn : String) :
    (setTsa t b s sn).buses = s.buses := rfl

@[simp] theorem setTsa_cities (t : Nat) (b : Bool) (s : MemStorage) (sn : String) :
    (setTsa t b s sn).cities = s.cities := rfl

@[simp] theorem addDetail_trips (bid : Nat) (s : MemStorage) (sn : String) :
    (addDetail bid s sn).trips = s.trips := rfl

@[simp] theorem addDetail_bookings (bid : Nat) (s : MemStorage) (sn : String) :
    (addDetail bid s sn).bookings = s.bookings := rfl

@[simp] theorem addDetail_seatLayouts (bid : Nat) (s : MemStorage) (sn : String) :
    (addDetail bid s sn).seatLayouts = s.seatLayouts := rfl

@[simp] theorem addDetail_buses (bid : Nat) (s : MemStorage) (sn : String) :
    (addDetail bid s sn).buses = s.buses := rfl

@[simp] theorem addDetail_cities (bid : Nat) (s : MemStorage) (sn : String) :
    (addDetail bid s sn).cities = s.cities := rfl

@[simp] theorem addDetail_tsa (bid : Nat) (s : MemStorage) (sn : String) :
    (addDetail bid s sn).tripSeatAvailability = s.tripSeatAvailability := rfl

theorem createDefaultSeatLayout_trips (s : MemStorage) (b : Nat) :
    (createDefaultSeatLayout s b).trips = s.trips :=
  foldl_preserve MemStorage.trips _ _ s (fun _ _ => rfl)

/-! ## Congruence lemmas: reads only depend on the fields they read -/

theorem getBus_congr (s s' : MemStorage) (i : Nat) (h1 : s'.buses = s.buses)
    (h2 : s'.cities = s.cities) : getBus s' i = getBus s i := by
  unfold getBus
  rw [h1, h2]

theorem findTrip_congr (s s' : MemStorage) (b : Nat) (d : String) (h : s'.trips = s.trips) :
    findTrip s' b d = findTrip s b d := by
  unfold findTrip
  rw [h]

theorem getBusSeatLayout_congr (s s' : MemStorage) (b : Nat)
    (h : s'.seatLayouts = s.seatLayouts) : getBusSeatLayout s' b = getBusSeatLayout s b := by
  unfold getBusSeatLayout
  rw [h]

theorem bookedSeatsFor_congr (s s' : MemStorage) (b : Nat) (d : String)
    (h1 : s'.bookings = s.bookings) (h2 : s'.bookingDetails = s.bookingDetails) :
    bookedSeatsFor s' b d = bookedSeatsFor s b d := by
  unfold bookedSeatsFor
  rw [h1, h2]

/-! ## Helper lemmas about the booking methods -/

theorem foldl_addDetail_bookingDetails (bid : Nat) (seats : List String) :
    ∀ s : MemStorage, (∀ p ∈ s.bookingDetails, p.1 < s.bookingDetailIdCounter) →
      (seats.foldl (addDetail bid) s).bookingDetails
        = s.bookingDetails ++ newDetails bid s.bookingDetailIdCounter seats := by
  induction seats with
  | nil => intro s _; simp [newDetails]
  | cons sn rest ih =>
    intro s h
    rw [List.foldl_cons]
    have hset : (addDetail bid s sn).bookingDetails
        = s.bookingDetails ++
          [(s.bookingDetailIdCounter,
            { id := s.bookingDetailIdCounter, bookingId := bid, seatNumber := sn })] := by
      unfold addDetail
      exact mapSet_eq_append _ _ _ (fun p hp => Nat.ne_of_lt (h p hp))
    have hctr : (addDetail bid s sn).bookingDetailIdCounter = s.bookingDetailIdCounter + 1 := rfl
    have hfresh : ∀ p ∈ (addDetail bid s sn).bookingDetails,
        p.1 < (addDetail bid s sn).bookingDetailIdCounter := by
      intro p hp
      rw [hset] at hp
      rw [hctr]
      rcases List.mem_append.mp hp with h' | h'
      · exact Nat.lt_succ_of_lt (h p h')
      · rw [List.mem_singleton.mp h']
        exact Nat.lt_succ_self _
    rw [ih _ hfresh, hset, hctr, List.append_assoc]
    rfl

theorem foldl_addDetail_preserve {β : Type} (g : MemStorage → β) (bid : Nat)
    (seats : List String) (s : MemStorage) (h : ∀ s sn, g (addDetail bid s sn) = g s) :
    g (seats.foldl (addDetail bid) s) = g s :=
  foldl_preserve g _ seats s h

theorem busOk_elim {e : Except String (Option BusWithCities)} (h : busOk e = true) :
    ∃ b, e = Except.ok (some b) := by
  cases e with
  | error msg => simp [busOk] at h
  | ok o =>
    cases o with
    | none => simp [busOk] at h
    | some b => exact ⟨b, rfl⟩

theorem getBookingWithDetails_ok (s : MemStorage) (b : Booking) (bwc : BusWithCities)
    (hbus : getBus s b.busId = Except.ok (some bwc)) :
    getBookingWithDetails s b = Except.ok
      { toBooking := b, bus := bwc, fromCity := bwc.fromCity, toCity := bwc.toCity
      , seats := bookingSeats s b.id } := by
  unfold getBookingWithDetails
  rw [hbus]
  rfl

/-- Appending a non-confirmed booking and details that reference no existing
booking id does not change the booked-seat set of any availability query. -/
theorem bookedSeatsFor_extend (s s' : MemStorage) (busId : Nat) (date : String)
    (bid : Nat) (b : Booking) (nds : List (Nat × BookingDetail))
    (hbk : s'.bookings = s.bookings ++ [(bid, b)])
    (hbd : s'.bookingDetails = s.bookingDetails ++ nds)
    (hstatus : b.status ≠ "confirmed")
    (hfresh : ∀ p ∈ s.bookings, ∀ q ∈ nds, q.2.bookingId ≠ p.2.id) :
    bookedSeatsFor s' busId date = bookedSeatsFor s busId date := by
  unfold bookedSeatsFor
  rw [hbk]
  unfold mapValues
  rw [List.map_append, List.foldl_append]
  have hb : (b.status == "confirmed") = false := by
    simp [hstatus]
  simp only [List.map_cons, List.map_nil, List.foldl_cons, List.foldl_nil, hb,
    Bool.and_false, Bool.if_false_right, Bool.and_true, if_false]
  apply List.foldl_ext
  intro acc v hv
  obtain ⟨p, hp, hpv⟩ := List.mem_map.mp hv
  have hfilter : (s'.bookingDetails.map Prod.snd).filter (fun d => d.bookingId == v.id)
      = (s.bookingDetails.map Prod.snd).filter (fun d => d.bookingId == v.id) := by
    rw [hbd]
    rw [List.map_append, List.filter_append]
    have : (nds.map Prod.snd).filter (fun d => d.bookingId == v.id) = [] := by
      apply List.filter_eq_nil_iff.mpr
      intro d hd
      obtain ⟨q, hq, hqd⟩ := List.mem_map.mp hd
      have := hfresh p hp q hq
      rw [hqd, hpv] at this
      simpa using this
    rw [this, List.append_nil]
  rw [hfilter]

/-! ## Claim C1 -/

/-- C1: the claim says a `createBooking` that targets an already-booked seat
fails with `SeatUnavailable`, creates no booking, and leaves every targeted
seat and the counter untouched. The code has no availability check at all:
with seat "2B" of bus 1 already booked (and reported unavailable), booking
`["2A", "2B"]` succeeds, creates a second confirmed booking (id 2) whose
details cover "2B" a second time, marks "2A" unavailable, and drops the
trip counter from 29 to 27. -/
theorem C1_createBooking_overbooks_confirmed_seat :
    reportedAvail st1 1 d0 "2B" = some false ∧
    reportedAvail st1 1 d0 "2A" = some true ∧
    isOk (createBooking st1 ibA ["2A", "2B"]).1 = true ∧
    mapGet (createBooking st1 ibA ["2A", "2B"]).2.bookings 2
      = some { id := 2, userId := 1, busId := 1, travelDate := d0, bookingDate := 0
             , status := "confirmed", totalAmount := 4500, paymentStatus := "paid" } ∧
    bookingSeats (createBooking st1 ibA ["2A", "2B"]).2 2 = ["2A", "2B"] ∧
    reportedAvail (createBooking st1 ibA ["2A", "2B"]).2 1 d0 "2A" = some false ∧
    tripAvailOf st1 1 d0 = some 29 ∧
    tripAvailOf (createBooking st1 ibA ["2A", "2B"]).2 1 d0 = some 27 := by
  decide

/-! ## Claim C2 -/

/-- C2: the claim says the stored `availableSeats` counter always equals the
number of seats reported available. Right after the very first availability
query for seeded bus 1 (totalSeats 30, default layout of 20 seats) the
counter is 30 while exactly 20 seats are reported available. -/
theorem C2_counter_diverges_from_available_count :
    tripAvailOf st0 1 d0 = some 30 ∧ reportedAvailCount st0 1 d0 = some 20 := by
  decide

/-! ## Claim C4 -/

/-- C4: `cancelBooking` of a missing id does throw the not-found error, but
the claim's second half fails: cancelling booking 1 twice succeeds both
times — there is no `CANCELLED`-status check — and the second cancel
increments the trip counter again, from 30 to 31 (above the 29 it was at
while the booking was live, and above `totalSeats`-consistency). -/
theorem C4_double_cancel_double_increments :
    errMsg (cancelBooking st0 99).1 = some "Booking not found with id 99" ∧
    isOk (cancelBooking st1 1).1 = true ∧
    tripAvailOf (cancelBooking st1 1).2 1 d0 = some 30 ∧
    isOk (cancelBooking (cancelBooking st1 1).2 1).1 = true ∧
    (mapGet (cancelBooking st1 1).2.bookings 1).map Booking.status = some "cancelled" ∧
    tripAvailOf (cancelBooking (cancelBooking st1 1).2 1).2 1 d0 = some 31 := by
  decide

/-! ## Claim C3 -/

/-- C3 counterexample: the claim says an empty or duplicate-containing seat
list makes `createBooking` fail with `InvalidRequest` and create nothing.
Both calls succeed: the empty list creates confirmed booking 1 with no
seats, and `["2A", "2A"]` creates a booking with two identical details. -/
theorem C3_counterexample_no_validation :
    isOk (createBooking st0 ibA []).1 = true ∧
    mapGet (createBooking st0 ibA []).2.bookings 1
      = some { id := 1, userId := 1, busId := 1, travelDate := d0, bookingDate := 0
             , status := "confirmed", totalAmount := 4500, paymentStatus := "paid" } ∧
    bookingSeats (createBooking st0 ibA []).2 1 = [] ∧
    isOk (createBooking st0 ibA ["2A", "2A"]).1 = true ∧
    bookingSeats (createBooking st0 ibA ["2A", "2A"]).2 1 = ["2A", "2A"] := by
  decide

/-! ## Claim C7 -/

/-- C7: when no trip exists for `(busId, date)` and the bus does not exist,
`getSeatAvailability` throws the not-found error before any write: the call
returns the error and the state — in particular the trips map and the
`tripSeatAvailability` map — is exactly the input state. -/
theorem C7_missing_bus_mutates_nothing (s : MemStorage) (busId : Nat) (date : String)
    (hTrip : findTrip s busId date = none)
    (hBus : getBus s busId = Except.ok none) :
    (getSeatAvailability s busId date).1
      = Except.error ("Bus not found with id " ++ toString busId) ∧
    (getSeatAvailability s busId date).2 = s := by
  unfold getSeatAvailability
  rw [hTrip, hBus]
  exact ⟨rfl, rfl⟩

/-- Witness for C7 at bus 99, which the seeded storage does not contain. -/
theorem C7_missing_bus_mutates_nothing_witness :
    (getSeatAvailability initState 99 d0).1
      = Except.error ("Bus not found with id " ++ toString 99) ∧
    (getSeatAvailability initState 99 d0).2 = initState :=
  C7_missing_bus_mutates_nothing initState 99 d0 rfl rfl


/-! ## Phase lemmas for `createBooking` and `cancelBooking` -/

theorem cbDetailsState_trips (s : MemStorage) (ib : InsertBooking) (seats : List String) :
    (cbDetailsState s ib seats).trips = s.trips :=
  foldl_preserve MemStorage.trips _ seats _ (fun _ _ => rfl)

theorem cbDetailsState_tsa (s : MemStorage) (ib : InsertBooking) (seats : List String) :
    (cbDetailsState s ib seats).tripSeatAvailability = s.tripSeatAvailability :=
  foldl_preserve MemStorage.tripSeatAvailability _ seats _ (fun _ _ => rfl)

theorem cbDetailsState_bookings (s : MemStorage) (ib : InsertBooking) (seats : List String) :
    (cbDetailsState s ib seats).bookings
      = mapSet s.bookings s.bookingIdCounter (bookingOf s ib) :=
  foldl_preserve MemStorage.bookings _ seats _ (fun _ _ => rfl)

theorem cbDetailsState_buses (s : MemStorage) (ib : InsertBooking) (seats : List String) :
    (cbDetailsState s ib seats).buses = s.buses :=
  foldl_preserve MemStorage.buses _ seats _ (fun _ _ => rfl)

theorem cbDetailsState_cities (s : MemStorage) (ib : InsertBooking) (seats : List String) :
    (cbDetailsState s ib seats).cities = s.cities :=
  foldl_preserve MemStorage.cities _ seats _ (fun _ _ => rfl)

theorem cbDetailsState_seatLayouts (s : MemStorage) (ib : InsertBooking)
    (seats : List String) : (cbDetailsState s ib seats).seatLayouts = s.seatLayouts :=
  foldl_preserve MemStorage.seatLayouts _ seats _ (fun _ _ => rfl)

theorem cbDetailsState_bookingDetails (s : MemStorage) (ib : InsertBooking)
    (seats : List String) (h : ∀ p ∈ s.bookingDetails, p.1 < s.bookingDetailIdCounter) :
    (cbDetailsState s ib seats).bookingDetails
      = s.bookingDetails ++ newDetails s.bookingIdCounter s.bookingDetailIdCounter seats :=
  foldl_addDetail_bookingDetails _ seats _ h

theorem applyTripUpdate_of_none (seats : List String) (b : Nat) (d : String)
    (s : MemStorage) (h : findTrip s b d = none) : applyTripUpdate seats b d s = s := by
  unfold applyTripUpdate
  rw [h]

theorem applyTripUpdate_bookings (seats : List String) (b : Nat) (d : String)
    (s : MemStorage) : (applyTripUpdate seats b d s).bookings = s.bookings := by
  unfold applyTripUpdate
  cases hft : findTrip s b d with
  | none => rfl
  | some t => exact foldl_preserve MemStorage.bookings _ seats _ (fun _ _ => rfl)

theorem applyTripUpdate_bookingDetails (seats : List String) (b : Nat) (d : String)
    (s : MemStorage) : (applyTripUpdate seats b d s).bookingDetails = s.bookingDetails := by
  unfold applyTripUpdate
  cases hft : findTrip s b d with
  | none => rfl
  | some t => exact foldl_preserve MemStorage.bookingDetails _ seats _ (fun _ _ => rfl)

theorem applyTripUpdate_buses (seats : List String) (b : Nat) (d : String)
    (s : MemStorage) : (applyTripUpdate seats b d s).buses = s.buses := by
  unfold applyTripUpdate
  cases hft : findTrip s b d with
  | none => rfl
  | some t => exact foldl_preserve MemStorage.buses _ seats _ (fun _ _ => rfl)

theorem applyTripUpdate_cities (seats : List String) (b : Nat) (d : String)
    (s : MemStorage) : (applyTripUpdate seats b d s).cities = s.cities := by
  unfold applyTripUpdate
  cases hft : findTrip s b d with
  | none => rfl
  | some t => exact foldl_preserve MemStorage.cities _ seats _ (fun _ _ => rfl)

theorem applyTripUpdate_seatLayouts (seats : List String) (b : Nat) (d : String)
    (s : MemStorage) : (applyTripUpdate seats b d s).seatLayouts = s.seatLayouts := by
  unfold applyTripUpdate
  cases hft : findTrip s b d with
  | none => rfl
  | some t => exact foldl_preserve MemStorage.seatLayouts _ seats _ (fun _ _ => rfl)

theorem cbState_bookings (s : MemStorage) (ib : InsertBooking) (seats : List String) :
    (cbState s ib seats).bookings
      = mapSet s.bookings s.bookingIdCounter (bookingOf s ib) := by
  unfold cbState
  rw [applyTripUpdate_bookings]
  exact cbDetailsState_bookings s ib seats

theorem cbState_bookingDetails (s : MemStorage) (ib : InsertBooking) (seats : List String)
    (h : ∀ p ∈ s.bookingDetails, p.1 < s.bookingDetailIdCounter) :
    (cbState s ib seats).bookingDetails
      = s.bookingDetails ++ newDetails s.bookingIdCounter s.bookingDetailIdCounter seats := by
  unfold cbState
  rw [applyTripUpdate_bookingDetails]
  exact cbDetailsState_bookingDetails s ib seats h

theorem cbState_buses (s : MemStorage) (ib : InsertBooking) (seats : List String) :
    (cbState s ib seats).buses = s.buses := by
  unfold cbState
  rw [applyTripUpdate_buses]
  exact cbDetailsState_buses s ib seats

theorem cbState_cities (s : MemStorage) (ib : InsertBooking) (seats : List String) :
    (cbState s ib seats).cities = s.cities := by
  unfold cbState
  rw [applyTripUpdate_cities]
  exact cbDetailsState_cities s ib seats

theorem cbState_seatLayouts (s : MemStorage) (ib : InsertBooking) (seats : List String) :
    (cbState s ib seats).seatLayouts = s.seatLayouts := by
  unfold cbState
  rw [applyTripUpdate_seatLayouts]
  exact cbDetailsState_seatLayouts s ib seats

theorem cancelTripUpdate_of_none (details : List BookingDetail) (b : Nat) (d : String)
    (s : MemStorage) (h : findTrip s b d = none) : cancelTripUpdate details b d s = s := by
  unfold cancelTripUpdate
  rw [h]

theorem cancelTripUpdate_bookings (details : List BookingDetail) (b : Nat) (d : String)
    (s : MemStorage) : (cancelTripUpdate details b d s).bookings = s.bookings := by
  unfold cancelTripUpdate
  cases hft : findTrip s b d with
  | none => rfl
  | some t => exact foldl_preserve MemStorage.bookings _ details _ (fun _ _ => rfl)

theorem cancelTripUpdate_bookingDetails (details : List BookingDetail) (b : Nat)
    (d : String) (s : MemStorage) :
    (cancelTripUpdate details b d s).bookingDetails = s.bookingDetails := by
  unfold cancelTripUpdate
  cases hft : findTrip s b d with
  | none => rfl
  | some t => exact foldl_preserve MemStorage.bookingDetails _ details _ (fun _ _ => rfl)

theorem cancelTripUpdate_buses (details : List BookingDetail) (b : Nat) (d : String)
    (s : MemStorage) : (cancelTripUpdate details b d s).buses = s.buses := by
  unfold cancelTripUpdate
  cases hft : findTrip s b d with
  | none => rfl
  | some t => exact foldl_preserve MemStorage.buses _ details _ (fun _ _ => rfl)

theorem cancelTripUpdate_cities (details : List BookingDetail) (b : Nat) (d : String)
    (s : MemStorage) : (cancelTripUpdate details b d s).cities = s.cities := by
  unfold cancelTripUpdate
  cases hft : findTrip s b d with
  | none => rfl
  | some t => exact foldl_preserve MemStorage.cities _ details _ (fun _ _ => rfl)

theorem cancelTripUpdate_seatLayouts (details : List BookingDetail) (b : Nat) (d : String)
    (s : MemStorage) : (cancelTripUpdate details b d s).seatLayouts = s.seatLayouts := by
  unfold cancelTripUpdate
  cases hft : findTrip s b d with
  | none => rfl
  | some t => exact foldl_preserve MemStorage.seatLayouts _ details _ (fun _ _ => rfl)

theorem cancelState_bookings (s : MemStorage) (id : Nat) (booking : Booking) :
    (cancelState s id booking).bookings = mapSet s.bookings id booking := by
  unfold cancelState
  rw [cancelTripUpdate_bookings]
  rfl

theorem cancelState_bookingDetails (s : MemStorage) (id : Nat) (booking : Booking) :
    (cancelState s id booking).bookingDetails = s.bookingDetails := by
  unfold cancelState
  rw [cancelTripUpdate_bookingDetails]
  rfl

theorem cancelState_buses (s : MemStorage) (id : Nat) (booking : Booking) :
    (cancelState s id booking).buses = s.buses := by
  unfold cancelState
  rw [cancelTripUpdate_buses]
  rfl

theorem cancelState_cities (s : MemStorage) (id : Nat) (booking : Booking) :
    (cancelState s id booking).cities = s.cities := by
  unfold cancelState
  rw [cancelTripUpdate_cities]
  rfl

theorem cancelState_seatLayouts (s : MemStorage) (id : Nat) (booking : Booking) :
    (cancelState s id booking).seatLayouts = s.seatLayouts := by
  unfold cancelState
  rw [cancelTripUpdate_seatLayouts]
  rfl

/-! ## Claim C10 -/

/-- C10: when no trip exists for the booking's `(busId, travelDate)`,
`createBooking` still creates and returns the confirmed booking together
with one detail per listed seat, while the trips map and the
`tripSeatAvailability` map are left completely unchanged. -/
theorem C10_createBooking_without_trip_frames_inventory (s : MemStorage)
    (ib : InsertBooking) (seats : List String)
    (hTrip : findTrip s ib.busId ib.travelDate = none)
    (hBus : busOk (getBus s ib.busId) = true)
    (hStatus : ib.status = "confirmed")
    (hDKey : ∀ p ∈ s.bookingDetails, p.1 < s.bookingDetailIdCounter) :
    (∃ bwd, (createBooking s ib seats).1 = Except.ok bwd ∧
       bwd.toBooking = bookingOf s ib ∧ bwd.status = "confirmed") ∧
    mapGet (createBooking s ib seats).2.bookings s.bookingIdCounter
      = some (bookingOf s ib) ∧
    (createBooking s ib seats).2.bookingDetails
      = s.bookingDetails ++ newDetails s.bookingIdCounter s.bookingDetailIdCounter seats ∧
    (createBooking s ib seats).2.trips = s.trips ∧
    (createBooking s ib seats).2.tripSeatAvailability = s.tripSeatAvailability := by
  obtain ⟨bwc, hbwc⟩ := busOk_elim hBus
  have hftd : findTrip (cbDetailsState s ib seats) ib.busId ib.travelDate = none := by
    rw [findTrip_congr s _ _ _ (cbDetailsState_trips s ib seats)]
    exact hTrip
  have hstate : cbState s ib seats = cbDetailsState s ib seats :=
    applyTripUpdate_of_none _ _ _ _ hftd
  have hgb : getBus (cbState s ib seats) (bookingOf s ib).busId = Except.ok (some bwc) := by
    rw [getBus_congr s _ _ (cbState_buses s ib seats) (cbState_cities s ib seats)]
    exact hbwc
  refine ⟨?_, ?_, ?_, ?_, ?_⟩
  · have hbwd := getBookingWithDetails_ok (cbState s ib seats) (bookingOf s ib) bwc hgb
    exact ⟨_, hbwd, rfl, hStatus⟩
  · show mapGet (cbState s ib seats).bookings s.bookingIdCounter = some (bookingOf s ib)
    rw [cbState_bookings, mapGet_mapSet_self]
  · exact cbState_bookingDetails s ib seats hDKey
  · show (cbState s ib seats).trips = s.trips
    rw [hstate]
    exact cbDetailsState_trips s ib seats
  · show (cbState s ib seats).tripSeatAvailability = s.tripSeatAvailability
    rw [hstate]
    exact cbDetailsState_tsa s ib seats

/-- Witness for C10: booking seat "1A" of bus 1 on the seeded storage, where
no trip has been instantiated yet. -/
theorem C10_createBooking_without_trip_frames_inventory_witness :
    (∃ bwd, (createBooking initState ibA ["1A"]).1 = Except.ok bwd ∧
       bwd.toBooking = bookingOf initState ibA ∧ bwd.status = "confirmed") ∧
    mapGet (createBooking initState ibA ["1A"]).2.bookings initState.bookingIdCounter
      = some (bookingOf initState ibA) ∧
    (createBooking initState ibA ["1A"]).2.bookingDetails
      = initState.bookingDetails
        ++ newDetails initState.bookingIdCounter initState.bookingDetailIdCounter ["1A"] ∧
    (createBooking initState ibA ["1A"]).2.trips = initState.trips ∧
    (createBooking initState ibA ["1A"]).2.tripSeatAvailability
      = initState.tripSeatAvailability :=
  C10_createBooking_without_trip_frames_inventory initState ibA ["1A"] (by decide)
    (by decide) rfl (by decide)

/-- Success of `createBooking` depends only on the bus lookup for the
returned value — never on the seat list. -/
theorem createBooking_isOk (s : MemStorage) (ib : InsertBooking) (seats : List String) :
    isOk (createBooking s ib seats).1 = busOk (getBus s ib.busId) := by
  have hb : getBus (cbState s ib seats) (bookingOf s ib).busId = getBus s ib.busId :=
    getBus_congr s _ _ (cbState_buses s ib seats) (cbState_cities s ib seats)
  show isOk (getBookingWithDetails (cbState s ib seats) (bookingOf s ib)) = _
  unfold getBookingWithDetails
  rw [hb]
  cases hgb : getBus s ib.busId with
  | error e => rfl
  | ok o =>
    cases o with
    | none => rfl
    | some b => rfl

/-- C3 (amended): `createBooking` performs no validation of the seat list:
whether it succeeds depends only on the bus lookup of the returned value
(never on the list being empty or containing duplicates — there is no
`InvalidRequest` outcome), and in every case the Booking record and one
BookingDetail per seat-list entry are created. -/
theorem C3_amended_createBooking_never_validates (s : MemStorage) (ib : InsertBooking)
    (seats : List String)
    (hDKey : ∀ p ∈ s.bookingDetails, p.1 < s.bookingDetailIdCounter) :
    isOk (createBooking s ib seats).1 = busOk (getBus s ib.busId) ∧
    (createBooking s ib seats).2.bookings
      = mapSet s.bookings s.bookingIdCounter (bookingOf s ib) ∧
    (createBooking s ib seats).2.bookingDetails
      = s.bookingDetails ++ newDetails s.bookingIdCounter s.bookingDetailIdCounter seats :=
  ⟨createBooking_isOk s ib seats, cbState_bookings s ib seats,
    cbState_bookingDetails s ib seats hDKey⟩

/-- Witness for the amended C3 at the empty seat list. -/
theorem C3_amended_createBooking_never_validates_witness :
    isOk (createBooking st0 ibA []).1 = busOk (getBus st0 ibA.busId) ∧
    (createBooking st0 ibA []).2.bookings
      = mapSet st0.bookings st0.bookingIdCounter (bookingOf st0 ibA) ∧
    (createBooking st0 ibA []).2.bookingDetails
      = st0.bookingDetails
        ++ newDetails st0.bookingIdCounter st0.bookingDetailIdCounter [] :=
  C3_amended_createBooking_never_validates st0 ibA [] (by decide)

/-! ## Claim C9 -/

theorem bookingSeats_congr (s s' : MemStorage) (i : Nat)
    (h : s'.bookingDetails = s.bookingDetails) : bookingSeats s' i = bookingSeats s i := by
  unfold bookingSeats
  rw [h]

/-- C9: `cancelBooking` of an existing booking changes only the status
field: the returned record keeps every other booking field and the seat
list, the stored record is the input record with status `"cancelled"`, no
other key of the bookings map changes, and the details map is untouched. -/
theorem C9_cancelBooking_only_changes_status (s : MemStorage) (id : Nat) (b : Booking)
    (hb : mapGet s.bookings id = some b)
    (hBus : busOk (getBus s b.busId) = true) :
    ∃ bwd, (cancelBooking s id).1 = Except.ok bwd ∧
      bwd.toBooking = { b with status := "cancelled" } ∧
      bwd.seats = bookingSeats s b.id ∧
      mapGet (cancelBooking s id).2.bookings id = some { b with status := "cancelled" } ∧
      (∀ k, k ≠ id → mapGet (cancelBooking s id).2.bookings k = mapGet s.bookings k) ∧
      (cancelBooking s id).2.bookingDetails = s.bookingDetails := by
  obtain ⟨bwc, hbwc⟩ := busOk_elim hBus
  unfold cancelBooking
  rw [hb]
  have hgb : getBus (cancelState s id { b with status := "cancelled" })
      ({ b with status := "cancelled" } : Booking).busId = Except.ok (some bwc) := by
    rw [getBus_congr s _ _ (cancelState_buses s id _) (cancelState_cities s id _)]
    exact hbwc
  have hbwd := getBookingWithDetails_ok _ _ bwc hgb
  refine ⟨_, hbwd, rfl, ?_, ?_, ?_, ?_⟩
  · show bookingSeats (cancelState s id { b with status := "cancelled" })
        ({ b with status := "cancelled" } : Booking).id = bookingSeats s b.id
    rw [bookingSeats_congr s _ _ (cancelState_bookingDetails s id _)]
  · show mapGet (cancelState s id { b with status := "cancelled" }).bookings id = _
    rw [cancelState_bookings, mapGet_mapSet_self]
  · intro k hk
    show mapGet (cancelState s id { b with status := "cancelled" }).bookings k = _
    rw [cancelState_bookings, mapGet_mapSet_ne _ _ _ _ hk]
  · exact cancelState_bookingDetails s id _

/-- Witness for C9: cancelling booking 1 (seat "2B" of bus 1). -/
theorem C9_cancelBooking_only_changes_status_witness :
    ∃ bwd, (cancelBooking st1 1).1 = Except.ok bwd ∧
      bwd.toBooking = { id := 1, userId := 1, busId := 1, travelDate := d0
                      , bookingDate := 0, status := "cancelled", totalAmount := 4500
                      , paymentStatus := "paid" } ∧
      bwd.seats = bookingSeats st1 1 ∧
      mapGet (cancelBooking st1 1).2.bookings 1
        = some { id := 1, userId := 1, busId := 1, travelDate := d0, bookingDate := 0
               , status := "cancelled", totalAmount := 4500, paymentStatus := "paid" } ∧
      (∀ k, k ≠ 1 → mapGet (cancelBooking st1 1).2.bookings k = mapGet st1.bookings k) ∧
      (cancelBooking st1 1).2.bookingDetails = st1.bookingDetails :=
  C9_cancelBooking_only_changes_status st1 1
    { id := 1, userId := 1, busId := 1, travelDate := d0, bookingDate := 0
    , status := "confirmed", totalAmount := 4500, paymentStatus := "paid" }
    (by decide) (by decide)

/-! ## Claim C6: trip-uniqueness machinery -/

theorem tripsOk_mapSet_new (l : List (Nat × Trip)) (k : Nat) (v : Trip)
    (hOk : tripsOk l) (hid : v.id = k)
    (hno : ∀ t ∈ mapValues l, ¬(t.busId = v.busId ∧ t.date = v.date)) :
    tripsOk (mapSet l k v) := by
  obtain ⟨hWK, hND, hUniq⟩ := hOk
  refine ⟨?_, ?_, ?_⟩
  · intro q hq
    rcases mem_mapSet hq with h | h
    · exact hWK q h
    · rw [h]; exact hid
  · by_cases hk : k ∈ l.map Prod.fst
    · rw [mapSet_map_fst_of_mem v hk]; exact hND
    · rw [mapSet_eq_append l k v (fun p hp hpk => hk (hpk ▸ List.mem_map_of_mem Prod.fst hp))]
      rw [List.map_append]
      rw [List.nodup_append]
      exact ⟨hND, List.nodup_singleton k, by
        intro a ha hax
        rw [List.mem_singleton.mp hax] at ha
        exact hk ha⟩
  · intro p hp q hq hbus hdate
    rcases mem_mapSet hp with h1 | h1 <;> rcases mem_mapSet hq with h2 | h2
    · exact hUniq p h1 q h2 hbus hdate
    · exfalso
      apply hno p.2 (List.mem_map_of_mem Prod.snd h1)
      rw [h2] at hbus hdate
      exact ⟨hbus, hdate⟩
    · exfalso
      apply hno q.2 (List.mem_map_of_mem Prod.snd h2)
      rw [h1] at hbus hdate
      exact ⟨hbus.symm, hdate.symm⟩
    · rw [h1, h2]

theorem tripsOk_mapSet_update (l : List (Nat × Trip)) (t t' : Trip)
    (hOk : tripsOk l) (ht : t ∈ mapValues l)
    (hid : t'.id = t.id) (hbus : t'.busId = t.busId) (hdate : t'.date = t.date) :
    tripsOk (mapSet l t.id t') := by
  obtain ⟨hWK, hND, hUniq⟩ := hOk
  obtain ⟨⟨k₂, t₂⟩, hmem, ht₂⟩ := List.mem_map.mp ht
  simp only at ht₂
  rw [ht₂] at hmem
  have hk₂ : t.id = k₂ := hWK (k₂, t) hmem
  have hentry : (t.id, t) ∈ l := by rw [hk₂]; exact hmem
  have hkeys : t.id ∈ l.map Prod.fst := List.mem_map_of_mem Prod.fst hentry
  refine ⟨?_, ?_, ?_⟩
  · intro q hq
    rcases mem_mapSet_of_mem_keys hND hkeys hq with ⟨h1, _⟩ | h1
    · exact hWK q h1
    · rw [h1]; exact hid
  · rw [mapSet_map_fst_of_mem t' hkeys]; exact hND
  · intro p hp q hq hb hd
    rcases mem_mapSet_of_mem_keys hND hkeys hp with ⟨h1, hne1⟩ | h1 <;>
      rcases mem_mapSet_of_mem_keys hND hkeys hq with ⟨h2, hne2⟩ | h2
    · exact hUniq p h1 q h2 hb hd
    · exfalso
      apply hne1
      have hpt : p = (t.id, t) := by
        apply hUniq p h1 (t.id, t) hentry
        · rw [h2] at hb; simp only at hb; rw [hb, hbus]
        · rw [h2] at hd; simp only at hd; rw [hd, hdate]
      rw [hpt]
    · exfalso
      apply hne2
      have hqt : q = (t.id, t) := by
        apply hUniq q h2 (t.id, t) hentry
        · rw [h1] at hb; simp only at hb; rw [← hb, hbus]
        · rw [h1] at hd; simp only at hd; rw [← hd, hdate]
      rw [hqt]
    · rw [h1, h2]

theorem instantiateTrip_trips (s : MemStorage) (b : Nat) (d : String) (bus : BusWithCities)
    (sl : List SeatLayout) :
    (instantiateTrip s b d bus sl).trips
      = mapSet s.trips s.tripIdCounter
          { id := s.tripIdCounter, busId := b, date := d
          , availableSeats := bus.totalSeats } :=
  foldl_preserve MemStorage.trips _ _ _ (fun _ _ => rfl)

theorem getSeatAvailability_snd_of_found (s : MemStorage) (b : Nat) (d : String) (t : Trip)
    (h : findTrip s b d = some t) : (getSeatAvailability s b d).2 = s := by
  unfold getSeatAvailability
  rw [h]

theorem getSeatAvailability_snd_of_err (s : MemStorage) (b : Nat) (d : String)
    (hft : findTrip s b d = none) (e : String) (hgb : getBus s b = Except.error e) :
    (getSeatAvailability s b d).2 = s := by
  unfold getSeatAvailability
  rw [hft, hgb]

theorem getSeatAvailability_snd_of_nobus (s : MemStorage) (b : Nat) (d : String)
    (hft : findTrip s b d = none) (hgb : getBus s b = Except.ok none) :
    (getSeatAvailability s b d).2 = s := by
  unfold getSeatAvailability
  rw [hft, hgb]

theorem getSeatAvailability_snd_of_new (s : MemStorage) (b : Nat) (d : String)
    (bus : BusWithCities) (hft : findTrip s b d = none)
    (hgb : getBus s b = Except.ok (some bus)) :
    (getSeatAvailability s b d).2 = instantiateTrip s b d bus (getBusSeatLayout s b) := by
  unfold getSeatAvailability
  rw [hft, hgb]

theorem applyTripUpdate_trips_char (seats : List String) (b : Nat) (d : String)
    (s : MemStorage) :
    (applyTripUpdate seats b d s).trips
      = match findTrip s b d with
        | none => s.trips
        | some trip => mapSet s.trips trip.id
            { trip with availableSeats := trip.availableSeats - (seats.length : Int) } := by
  unfold applyTripUpdate
  cases hft : findTrip s b d with
  | none => rfl
  | some t => exact foldl_preserve MemStorage.trips _ seats _ (fun _ _ => rfl)

theorem cbState_trips_char (s : MemStorage) (ib : InsertBooking) (seats : List String) :
    (cbState s ib seats).trips
      = match findTrip s ib.busId ib.travelDate with
        | none => s.trips
        | some trip => mapSet s.trips trip.id
            { trip with availableSeats := trip.availableSeats - (seats.length : Int) } := by
  unfold cbState
  rw [applyTripUpdate_trips_char,
    findTrip_congr s _ _ _ (cbDetailsState_trips s ib seats), cbDetailsState_trips]

theorem cancelTripUpdate_trips_char (details : List BookingDetail) (b : Nat) (d : String)
    (s : MemStorage) :
    (cancelTripUpdate details b d s).trips
      = match findTrip s b d with
        | none => s.trips
        | some trip => mapSet s.trips trip.id
            { trip with availableSeats := trip.availableSeats + (details.length : Int) } := by
  unfold cancelTripUpdate
  cases hft : findTrip s b d with
  | none => rfl
  | some t => exact foldl_preserve MemStorage.trips _ details _ (fun _ _ => rfl)

theorem cancelState_trips_char (s : MemStorage) (id : Nat) (booking : Booking) :
    (cancelState s id booking).trips
      = match findTrip s booking.busId booking.travelDate with
        | none => s.trips
        | some trip => mapSet s.trips trip.id
            { trip with availableSeats := trip.availableSeats
                + ((((mapValues s.bookingDetails).filter
                      (fun d => d.bookingId == booking.id)).length : Int)) } := by
  show (cancelTripUpdate
      ((mapValues s.bookingDetails).filter (fun d => d.bookingId == booking.id))
      booking.busId booking.travelDate
      { s with bookings := mapSet s.bookings id booking }).trips = _
  rw [cancelTripUpdate_trips_char]
  rfl

/-- Every storage operation preserves well-formedness of the trips map — in
particular, none ever creates a second trip for an existing
`(busId, date)` key. -/
theorem step_tripsOk (s : MemStorage) (op : Op) (h : tripsOk s.trips) :
    tripsOk (step s op).trips := by
  cases op with
  | createUser iu => exact h
  | createCity ic => exact h
  | createSeatLayout isl => exact h
  | deleteBus id => exact h
  | createBus ib =>
    show tripsOk (createBus s ib).2.trips
    have hT : (createBus s ib).2.trips = s.trips := createDefaultSeatLayout_trips _ _
    rw [hT]
    exact h
  | updateBus id ib =>
    show tripsOk (updateBus s id ib).2.trips
    unfold updateBus
    split
    · exact h
    · exact h
  | getSeatAvailability b d =>
    show tripsOk (getSeatAvailability s b d).2.trips
    cases hft : findTrip s b d with
    | some t =>
      rw [getSeatAvailability_snd_of_found s b d t hft]
      exact h
    | none =>
      cases hgb : getBus s b with
      | error e =>
        rw [getSeatAvailability_snd_of_err s b d hft e hgb]
        exact h
      | ok o =>
        cases o with
        | none =>
          rw [getSeatAvailability_snd_of_nobus s b d hft hgb]
          exact h
        | some bus =>
          rw [getSeatAvailability_snd_of_new s b d bus hft hgb, instantiateTrip_trips]
          refine tripsOk_mapSet_new _ _ _ h ?_ ?_
          · rfl
          · intro t ht hcontra
            have hft' : (mapValues s.trips).find? (fun t => t.busId == b && t.date == d)
                = none := hft
            have hno := List.find?_eq_none.mp hft' t ht
            apply hno
            simp only at hcontra
            simp [hcontra.1, hcontra.2]
  | createBooking ib seats =>
    show tripsOk (cbState s ib seats).trips
    rw [cbState_trips_char]
    cases hft : findTrip s ib.busId ib.travelDate with
    | none => exact h
    | some t =>
      have hft' : (mapValues s.trips).find?
          (fun x => x.busId == ib.busId && x.date == ib.travelDate) = some t := hft
      exact tripsOk_mapSet_update _ t _ h (List.mem_of_find?_eq_some hft') rfl rfl rfl
  | cancelBooking id =>
    show tripsOk (cancelBooking s id).2.trips
    unfold cancelBooking
    cases hmg : mapGet s.bookings id with
    | none => exact h
    | some b0 =>
      show tripsOk (cancelState s id { b0 with status := "cancelled" }).trips
      rw [cancelState_trips_char]
      cases hft : findTrip s ({ b0 with status := "cancelled" } : Booking).busId
          ({ b0 with status := "cancelled" } : Booking).travelDate with
      | none => exact h
      | some t =>
        have hft' : (mapValues s.trips).find?
            (fun x => x.busId == ({ b0 with status := "cancelled" } : Booking).busId
              && x.date == ({ b0 with status := "cancelled" } : Booking).travelDate)
            = some t := hft
        exact tripsOk_mapSet_update _ t _ h (List.mem_of_find?_eq_some hft') rfl rfl rfl

theorem runOps_tripsOk (ops : List Op) :
    ∀ s : MemStorage, tripsOk s.trips → tripsOk (runOps s ops).trips := by
  induction ops with
  | nil => intro s h; exact h
  | cons op rest ih => intro s h; exact ih (step s op) (step_tripsOk s op h)

theorem tripKeyUniqueB_of_tripsOk (s : MemStorage) (h : tripsOk s.trips) :
    tripKeyUniqueB s = true := by
  unfold tripKeyUniqueB
  rw [List.all_eq_true]
  intro t1 ht1
  rw [List.all_eq_true]
  intro t2 ht2
  by_cases h1 : t1.busId = t2.busId
  · by_cases h2 : t1.date = t2.date
    · obtain ⟨p1, hp1, hv1⟩ := List.mem_map.mp ht1
      obtain ⟨p2, hp2, hv2⟩ := List.mem_map.mp ht2
      have hpq := h.2.2 p1 hp1 p2 hp2 (by rw [hv1, hv2]; exact h1) (by rw [hv1, hv2]; exact h2)
      have ht12 : t1 = t2 := by rw [← hv1, ← hv2, hpq]
      simp [ht12]
    · simp [h2]
  · simp [h1]

theorem tsaKey_inj_right (t : Nat) (a b : String) (h : tsaKey t a = tsaKey t b) : a = b := by
  unfold tsaKey at h
  have h2 := congrArg String.data h
  simp only [String.data_append, List.append_assoc, List.singleton_append] at h2
  have h3 := List.append_cancel_left h2
  simp only [List.cons.injEq, true_and] at h3
  exact String.ext h3

theorem foldl_setTsa_get_preserved (tripId : Nat) (names : List String) :
    ∀ (s : MemStorage) (k : String) (v : TripSeatAvailability),
      mapGet s.tripSeatAvailability k = some v →
      (∀ n ∈ names, tsaKey tripId n = k →
        ({ tripId := tripId, seatNumber := n, isAvailable := true } : TripSeatAvailability)
          = v) →
      mapGet ((names.foldl (setTsa tripId true) s).tripSeatAvailability) k = some v := by
  induction names with
  | nil => intro s k v h _; exact h
  | cons n rest ih =>
    intro s k v h hk
    rw [List.foldl_cons]
    apply ih
    · show mapGet (setTsa tripId true s n).tripSeatAvailability k = some v
      unfold setTsa
      by_cases hkey : tsaKey tripId n = k
      · rw [← hkey] at h ⊢
        rw [mapGet_mapSet_self]
        exact congrArg _ (hk n (by simp) hkey)
      · rw [mapGet_mapSet_ne _ _ _ _ (fun hh => hkey hh.symm)]
        exact h
    · intro n' hn' hkn'
      exact hk n' (by simp [hn']) hkn'

theorem foldl_setTsa_get_mem (tripId : Nat) (names : List String) :
    ∀ (s : MemStorage) (sn : String), sn ∈ names →
      mapGet ((names.foldl (setTsa tripId true) s).tripSeatAvailability) (tsaKey tripId sn)
        = some { tripId := tripId, seatNumber := sn, isAvailable := true } := by
  induction names with
  | nil => intro s sn h; simp at h
  | cons n rest ih =>
    intro s sn hsn
    rw [List.foldl_cons]
    by_cases hmem : sn ∈ rest
    · exact ih _ sn hmem
    · have hsn' : sn = n := by
        rcases List.mem_cons.mp hsn with h | h
        · exact h
        · exact absurd h hmem
      subst hsn'
      apply foldl_setTsa_get_preserved
      · show mapGet (setTsa tripId true s sn).tripSeatAvailability (tsaKey tripId sn) = _
        unfold setTsa
        rw [mapGet_mapSet_self]
      · intro n' hn' hkey
        rw [tsaKey_inj_right _ _ _ hkey]

theorem instantiateTrip_tsa_mem (s : MemStorage) (b : Nat) (d : String)
    (bus : BusWithCities) (sl : List SeatLayout) (seat : SeatLayout) (h : seat ∈ sl) :
    mapGet (instantiateTrip s b d bus sl).tripSeatAvailability
        (tsaKey s.tripIdCounter seat.seatNumber)
      = some { tripId := s.tripIdCounter, seatNumber := seat.seatNumber
             , isAvailable := true } :=
  foldl_setTsa_get_mem _ _ _ _ (List.mem_map_of_mem _ h)

/-! ## Claim C6 -/

/-- C6: trip creation is lazy and idempotent. (i) After every operation
sequence from the seeded initial storage, no two trips share a
`(busId, date)` key — at most one Trip per key ever exists. (ii) When a trip
for the key already exists, `getSeatAvailability` leaves the state (hence
the trip and its id) completely unchanged, so every call observes the same
trip. (iii) The call that does create the trip initialises `availableSeats`
to the bus's `totalSeats` and writes an `isAvailable: true` entry for every
seat of the layout. -/
theorem C6_lazy_trip_creation_idempotent :
    (∀ ops : List Op, tripKeyUniqueB (runOps initState ops) = true) ∧
    (∀ (s : MemStorage) (busId : Nat) (date : String) (t : Trip),
        findTrip s busId date = some t → (getSeatAvailability s busId date).2 = s) ∧
    (∀ (s : MemStorage) (busId : Nat) (date : String) (bus : BusWithCities),
        findTrip s busId date = none → getBus s busId = Except.ok (some bus) →
        findTrip (getSeatAvailability s busId date).2 busId date
          = some { id := s.tripIdCounter, busId := busId, date := date
                 , availableSeats := bus.totalSeats } ∧
        ∀ seat ∈ getBusSeatLayout s busId,
          mapGet (getSeatAvailability s busId date).2.tripSeatAvailability
              (tsaKey s.tripIdCounter seat.seatNumber)
            = some { tripId := s.tripIdCounter, seatNumber := seat.seatNumber
                   , isAvailable := true }) := by
  refine ⟨?_, ?_, ?_⟩
  · intro ops
    exact tripKeyUniqueB_of_tripsOk _ (runOps_tripsOk ops initState (by decide))
  · intro s busId date t h
    exact getSeatAvailability_snd_of_found s busId date t h
  · intro s busId date bus hft hgb
    rw [getSeatAvailability_snd_of_new s busId date bus hft hgb]
    constructor
    · show (mapValues (instantiateTrip s busId date bus (getBusSeatLayout s busId)).trips).find?
          (fun t => t.busId == busId && t.date == date) = _
      rw [instantiateTrip_trips]
      have hft' : (mapValues s.trips).find? (fun t => t.busId == busId && t.date == date)
          = none := hft
      exact find?_values_mapSet_of_none hft' (by simp)
    · intro seat hseat
      exact instantiateTrip_tsa_mem s busId date bus _ seat hseat

/-- Witness for C6: two availability queries for bus 1 on the seeded
storage create exactly one trip (id 1, counter 30, all 20 layout seats
marked available), and the second query does not change the state. -/
theorem C6_lazy_trip_creation_idempotent_witness :
    tripKeyUniqueB (runOps initState
      [Op.getSeatAvailability 1 d0, Op.getSeatAvailability 1 d0]) = true ∧
    (getSeatAvailability st0 1 d0).2 = st0 ∧
    (findTrip (getSeatAvailability initState 1 d0).2 1 d0
        = some { id := 1, busId := 1, date := d0, availableSeats := 30 } ∧
      ∀ seat ∈ getBusSeatLayout initState 1,
        mapGet (getSeatAvailability initState 1 d0).2.tripSeatAvailability
            (tsaKey 1 seat.seatNumber)
          = some { tripId := 1, seatNumber := seat.seatNumber, isAvailable := true }) :=
  ⟨C6_lazy_trip_creation_idempotent.1
      [Op.getSeatAvailability 1 d0, Op.getSeatAvailability 1 d0],
    C6_lazy_trip_creation_idempotent.2.1 st0 1 d0
      { id := 1, busId := 1, date := d0, availableSeats := 30 } (by decide),
    C6_lazy_trip_creation_idempotent.2.2 initState 1 d0 bus1 (by decide) rfl⟩

/-! ## Claim C5: supporting lemmas -/

theorem getSeatAvailability_fst_of_found (s : MemStorage) (b : Nat) (d : String) (t : Trip)
    (h : findTrip s b d = some t) :
    (getSeatAvailability s b d).1
      = Except.ok (buildSeatAvailability s t.id b d (getBusSeatLayout s b)) := by
  unfold getSeatAvailability
  rw [h]

/-- In the found-trip case, the availability reported for one seat is the
per-seat entry of the first layout row with that seat number. -/
theorem reportedAvail_found (s : MemStorage) (b : Nat) (d : String) (t : Trip)
    (seat : String) (h : findTrip s b d = some t) :
    reportedAvail s b d seat
      = ((getBusSeatLayout s b).find? (fun sl => sl.seatNumber == seat)).map
          (fun sl =>
            (match mapGet s.tripSeatAvailability (tsaKey t.id sl.seatNumber) with
             | none => true
             | some a => a.isAvailable)
            && !((bookedSeatsFor s b d).contains sl.seatNumber)) := by
  unfold reportedAvail
  rw [getSeatAvailability_fst_of_found s b d t h]
  show Option.map (fun r => r.isAvailable)
      ((buildSeatAvailability s t.id b d (getBusSeatLayout s b)).find?
        (fun r => r.seatNumber == seat)) = _
  unfold buildSeatAvailability
  rw [List.find?_map, Option.map_map]
  rfl

theorem applyTripUpdate_tsa_single (b : Nat) (d : String) (s : MemStorage) (t : Trip)
    (seat : String) (h : findTrip s b d = some t) :
    (applyTripUpdate [seat] b d s).tripSeatAvailability
      = mapSet s.tripSeatAvailability (tsaKey t.id seat)
          { tripId := t.id, seatNumber := seat, isAvailable := false } := by
  unfold applyTripUpdate
  rw [h]
  rfl

theorem cancelTripUpdate_tsa_single (b : Nat) (d : String) (s : MemStorage) (t : Trip)
    (dt : BookingDetail) (h : findTrip s b d = some t) :
    (cancelTripUpdate [dt] b d s).tripSeatAvailability
      = mapSet s.tripSeatAvailability (tsaKey t.id dt.seatNumber)
          { tripId := t.id, seatNumber := dt.seatNumber, isAvailable := true } := by
  unfold cancelTripUpdate
  rw [h]
  rfl

theorem cancelTripUpdate_trips_single (b : Nat) (d : String) (s : MemStorage) (t : Trip)
    (dt : BookingDetail) (h : findTrip s b d = some t) :
    (cancelTripUpdate [dt] b d s).trips
      = mapSet s.trips t.id { t with availableSeats := t.availableSeats + 1 } := by
  rw [cancelTripUpdate_trips_char]
  rw [h]
  norm_num

theorem applyTripUpdate_trips_single (b : Nat) (d : String) (s : MemStorage) (t : Trip)
    (seat : String) (h : findTrip s b d = some t) :
    (applyTripUpdate [seat] b d s).trips
      = mapSet s.trips t.id { t with availableSeats := t.availableSeats - 1 } := by
  rw [applyTripUpdate_trips_char]
  rw [h]
  norm_num

/-! ## Claim C5 -/

/-- C5: for a trip whose inventory exists and a seat reported available on
it, booking that single seat and then cancelling the returned booking id
leaves the seat reported AVAILABLE by `getSeatAvailability` and restores the
trip's `availableSeats` counter to its pre-booking value. The id-freshness
hypotheses (`idInv`) hold in every state the storage can reach, since ids
are only handed out by the monotone counters. -/
theorem C5_cancellation_round_trip (s : MemStorage) (ib : InsertBooking) (seat : String)
    (t : Trip)
    (hInv : idInv s)
    (hTrip : findTrip s ib.busId ib.travelDate = some t)
    (hAvail : reportedAvail s ib.busId ib.travelDate seat = some true)
    (hBus : busOk (getBus s ib.busId) = true) :
    ∃ bwd, (createBooking s ib [seat]).1 = Except.ok bwd ∧
      bwd.id = s.bookingIdCounter ∧
      reportedAvail (cancelBooking (createBooking s ib [seat]).2 bwd.id).2
          ib.busId ib.travelDate seat = some true ∧
      tripAvailOf (cancelBooking (createBooking s ib [seat]).2 bwd.id).2
          ib.busId ib.travelDate = some t.availableSeats := by
  obtain ⟨hTOk, hBWK, hBFresh, hDBFresh, hDKey⟩ := hInv
  obtain ⟨hTWK, hTND, hTUniq⟩ := hTOk
  obtain ⟨bwc, hbwc⟩ := busOk_elim hBus
  have hTrip' : (mapValues s.trips).find?
      (fun x => x.busId == ib.busId && x.date == ib.travelDate) = some t := hTrip
  -- the returned value of createBooking
  have hgb1 : getBus (cbState s ib [seat]) (bookingOf s ib).busId = Except.ok (some bwc) := by
    rw [getBus_congr s _ _ (cbState_buses s ib [seat]) (cbState_cities s ib [seat])]
    exact hbwc
  have hbwd := getBookingWithDetails_ok _ _ bwc hgb1
  -- state after createBooking
  have hS1books : (cbState s ib [seat]).bookings
      = s.bookings ++ [(s.bookingIdCounter, bookingOf s ib)] := by
    rw [cbState_bookings]
    exact mapSet_eq_append _ _ _ (fun p hp => Nat.ne_of_lt (hBFresh p hp))
  have hS1bd : (cbState s ib [seat]).bookingDetails
      = s.bookingDetails
        ++ [(s.bookingDetailIdCounter,
             { id := s.bookingDetailIdCounter, bookingId := s.bookingIdCounter
             , seatNumber := seat })] := by
    rw [cbState_bookingDetails s ib [seat] hDKey]
    rfl
  have hftDS : findTrip (cbDetailsState s ib [seat]) ib.busId ib.travelDate = some t := by
    rw [findTrip_congr s _ _ _ (cbDetailsState_trips s ib [seat])]
    exact hTrip
  have hS1trips : (cbState s ib [seat]).trips
      = mapSet s.trips t.id { t with availableSeats := t.availableSeats - 1 } := by
    show (applyTripUpdate [seat] ib.busId ib.travelDate (cbDetailsState s ib [seat])).trips = _
    rw [applyTripUpdate_trips_single _ _ _ t seat hftDS, cbDetailsState_trips]
  have hS1tsa : (cbState s ib [seat]).tripSeatAvailability
      = mapSet s.tripSeatAvailability (tsaKey t.id seat)
          { tripId := t.id, seatNumber := seat, isAvailable := false } := by
    show (applyTripUpdate [seat] ib.busId ib.travelDate
        (cbDetailsState s ib [seat])).tripSeatAvailability = _
    rw [applyTripUpdate_tsa_single _ _ _ t seat hftDS, cbDetailsState_tsa]
  -- entering cancelBooking
  have hmg : mapGet (cbState s ib [seat]).bookings s.bookingIdCounter
      = some (bookingOf s ib) := by
    rw [hS1books]
    exact mapGet_append_last _ _ _ (fun p hp => Nat.ne_of_lt (hBFresh p hp))
  have hcb2 : (cancelBooking (cbState s ib [seat]) s.bookingIdCounter).2
      = cancelState (cbState s ib [seat]) s.bookingIdCounter
          { bookingOf s ib with status := "cancelled" } := by
    unfold cancelBooking
    rw [hmg]
  -- the cancel's details list is exactly the one new detail
  have hdet : (mapValues (cbState s ib [seat]).bookingDetails).filter
      (fun d => d.bookingId
        == ({ bookingOf s ib with status := "cancelled" } : Booking).id)
      = [{ id := s.bookingDetailIdCounter, bookingId := s.bookingIdCounter
         , seatNumber := seat }] := by
    rw [hS1bd]
    show ((s.bookingDetails
        ++ [(s.bookingDetailIdCounter,
             ({ id := s.bookingDetailIdCounter, bookingId := s.bookingIdCounter
              , seatNumber := seat } : BookingDetail))]).map Prod.snd).filter
        (fun d => d.bookingId == s.bookingIdCounter)
      = [({ id := s.bookingDetailIdCounter, bookingId := s.bookingIdCounter
          , seatNumber := seat } : BookingDetail)]
    rw [List.map_append, List.filter_append]
    have h1 : ((s.bookingDetails.map Prod.snd).filter
        (fun d => d.bookingId == s.bookingIdCounter)) = [] := by
      rw [List.filter_eq_nil_iff]
      intro d hd
      obtain ⟨p, hp, hpd⟩ := List.mem_map.mp hd
      have hlt := hDBFresh p hp
      rw [← hpd]
      simp [Nat.ne_of_lt hlt]
    rw [h1]
    simp
  -- the state reached by the cancel, as a cancelTripUpdate application
  have hcs : cancelState (cbState s ib [seat]) s.bookingIdCounter
        { bookingOf s ib with status := "cancelled" }
      = cancelTripUpdate
          [{ id := s.bookingDetailIdCounter, bookingId := s.bookingIdCounter
           , seatNumber := seat }]
          ib.busId ib.travelDate
          (markCancelled (cbState s ib [seat]) s.bookingIdCounter
            { bookingOf s ib with status := "cancelled" }) := by
    show cancelTripUpdate ((mapValues (cbState s ib [seat]).bookingDetails).filter
        (fun d => d.bookingId
          == ({ bookingOf s ib with status := "cancelled" } : Booking).id))
        ib.busId ib.travelDate _ = _
    rw [hdet]
  -- well-formedness of the once-updated trips map
  have hTWK1 : ∀ q ∈ mapSet s.trips t.id { t with availableSeats := t.availableSeats - 1 },
      q.2.id = q.1 := by
    intro q hq
    rcases mem_mapSet hq with h | h
    · exact hTWK q h
    · rw [h]
  have htmem : t ∈ mapValues s.trips := List.mem_of_find?_eq_some hTrip'
  have htkeys : t.id ∈ s.trips.map Prod.fst := by
    obtain ⟨p, hp, hpt⟩ := List.mem_map.mp htmem
    have hw := hTWK p hp
    rw [hpt] at hw
    rw [hw]
    exact List.mem_map_of_mem Prod.fst hp
  have hTND1 : ((mapSet s.trips t.id
      { t with availableSeats := t.availableSeats - 1 }).map Prod.fst).Nodup := by
    rw [mapSet_map_fst_of_mem _ htkeys]
    exact hTND
  have hft1 : (mapValues (mapSet s.trips t.id
        { t with availableSeats := t.availableSeats - 1 })).find?
      (fun x => x.busId == ib.busId && x.date == ib.travelDate)
      = some { t with availableSeats := t.availableSeats - 1 } := by
    apply find?_values_mapSet_of_found hTWK hTND hTrip'
    show (t.busId == ib.busId && t.date == ib.travelDate) = true
    have hptrue := List.find?_some hTrip'
    exact hptrue
  have hft1' : findTrip (markCancelled (cbState s ib [seat]) s.bookingIdCounter
        { bookingOf s ib with status := "cancelled" }) ib.busId ib.travelDate
      = some { t with availableSeats := t.availableSeats - 1 } := by
    show (mapValues (cbState s ib [seat]).trips).find?
        (fun x => x.busId == ib.busId && x.date == ib.travelDate)
      = some { t with availableSeats := t.availableSeats - 1 }
    rw [hS1trips]
    exact hft1
  have hS2trips : (cancelTripUpdate
        [{ id := s.bookingDetailIdCounter, bookingId := s.bookingIdCounter
         , seatNumber := seat }]
        ib.busId ib.travelDate
        (markCancelled (cbState s ib [seat]) s.bookingIdCounter
          { bookingOf s ib with status := "cancelled" })).trips
      = mapSet (mapSet s.trips t.id { t with availableSeats := t.availableSeats - 1 })
          ({ t with availableSeats := t.availableSeats - 1 } : Trip).id
          { t with availableSeats := t.availableSeats - 1 + 1 } := by
    have h0 := cancelTripUpdate_trips_single ib.busId ib.travelDate
        (markCancelled (cbState s ib [seat]) s.bookingIdCounter
          { bookingOf s ib with status := "cancelled" })
        { t with availableSeats := t.availableSeats - 1 }
        { id := s.bookingDetailIdCounter, bookingId := s.bookingIdCounter
        , seatNumber := seat } hft1'
    rw [h0]
    show mapSet (cbState s ib [seat]).trips _ _ = _
    rw [hS1trips]
  have hfind2 : findTrip (cancelTripUpdate
        [{ id := s.bookingDetailIdCounter, bookingId := s.bookingIdCounter
         , seatNumber := seat }]
        ib.busId ib.travelDate
        (markCancelled (cbState s ib [seat]) s.bookingIdCounter
          { bookingOf s ib with status := "cancelled" })) ib.busId ib.travelDate
      = some { t with availableSeats := t.availableSeats - 1 + 1 } := by
    show (mapValues (cancelTripUpdate
        [{ id := s.bookingDetailIdCounter, bookingId := s.bookingIdCounter
         , seatNumber := seat }]
        ib.busId ib.travelDate
        (markCancelled (cbState s ib [seat]) s.bookingIdCounter
          { bookingOf s ib with status := "cancelled" })).trips).find?
        (fun x => x.busId == ib.busId && x.date == ib.travelDate)
      = some { t with availableSeats := t.availableSeats - 1 + 1 }
    rw [hS2trips]
    apply find?_values_mapSet_of_found hTWK1 hTND1 hft1
    show (t.busId == ib.busId && t.date == ib.travelDate) = true
    have hptrue := List.find?_some hTrip'
    exact hptrue
  have hfinal : (cancelBooking (cbState s ib [seat]) s.bookingIdCounter).2
      = cancelTripUpdate
          [{ id := s.bookingDetailIdCounter, bookingId := s.bookingIdCounter
           , seatNumber := seat }]
          ib.busId ib.travelDate
          (markCancelled (cbState s ib [seat]) s.bookingIdCounter
            { bookingOf s ib with status := "cancelled" }) := by
    rw [hcb2, hcs]
  have hAvail2 : tripAvailOf (cancelBooking (cbState s ib [seat]) s.bookingIdCounter).2
      ib.busId ib.travelDate = some t.availableSeats := by
    unfold tripAvailOf
    rw [hfinal]
    show (findTrip _ ib.busId ib.travelDate).map (fun t => t.availableSeats) = _
    rw [hfind2]
    show some (t.availableSeats - 1 + 1) = some t.availableSeats
    congr 1
    omega
  -- layout, bookings, details and booked-seat set of the final state
  have hS2sl : (cancelTripUpdate
        [{ id := s.bookingDetailIdCounter, bookingId := s.bookingIdCounter
         , seatNumber := seat }]
        ib.busId ib.travelDate
        (markCancelled (cbState s ib [seat]) s.bookingIdCounter
          { bookingOf s ib with status := "cancelled" })).seatLayouts
      = s.seatLayouts := by
    rw [cancelTripUpdate_seatLayouts]
    show (cbState s ib [seat]).seatLayouts = s.seatLayouts
    exact cbState_seatLayouts s ib [seat]
  have hS2books : (cancelTripUpdate
        [{ id := s.bookingDetailIdCounter, bookingId := s.bookingIdCounter
         , seatNumber := seat }]
        ib.busId ib.travelDate
        (markCancelled (cbState s ib [seat]) s.bookingIdCounter
          { bookingOf s ib with status := "cancelled" })).bookings
      = s.bookings
        ++ [(s.bookingIdCounter, { bookingOf s ib with status := "cancelled" })] := by
    rw [cancelTripUpdate_bookings]
    show mapSet (cbState s ib [seat]).bookings s.bookingIdCounter
        { bookingOf s ib with status := "cancelled" } = _
    rw [hS1books]
    exact mapSet_append_last _ _ _ _ (fun p hp => Nat.ne_of_lt (hBFresh p hp))
  have hS2bd : (cancelTripUpdate
        [{ id := s.bookingDetailIdCounter, bookingId := s.bookingIdCounter
         , seatNumber := seat }]
        ib.busId ib.travelDate
        (markCancelled (cbState s ib [seat]) s.bookingIdCounter
          { bookingOf s ib with status := "cancelled" })).bookingDetails
      = s.bookingDetails
        ++ [(s.bookingDetailIdCounter,
             { id := s.bookingDetailIdCounter, bookingId := s.bookingIdCounter
             , seatNumber := seat })] := by
    rw [cancelTripUpdate_bookingDetails]
    show (cbState s ib [seat]).bookingDetails = _
    exact hS1bd
  have hbooked : bookedSeatsFor (cancelTripUpdate
        [{ id := s.bookingDetailIdCounter, bookingId := s.bookingIdCounter
         , seatNumber := seat }]
        ib.busId ib.travelDate
        (markCancelled (cbState s ib [seat]) s.bookingIdCounter
          { bookingOf s ib with status := "cancelled" })) ib.busId ib.travelDate
      = bookedSeatsFor s ib.busId ib.travelDate := by
    apply bookedSeatsFor_extend s _ ib.busId ib.travelDate s.bookingIdCounter
      { bookingOf s ib with status := "cancelled" }
      [(s.bookingDetailIdCounter,
        { id := s.bookingDetailIdCounter, bookingId := s.bookingIdCounter
        , seatNumber := seat })] hS2books hS2bd
    · show ("cancelled" : String) ≠ "confirmed"
      decide
    · intro p hp q hq
      rw [List.mem_singleton.mp hq]
      show s.bookingIdCounter ≠ p.2.id
      rw [hBWK p hp]
      exact (Nat.ne_of_lt (hBFresh p hp)).symm
  have hS2tsa : mapGet (cancelTripUpdate
        [{ id := s.bookingDetailIdCounter, bookingId := s.bookingIdCounter
         , seatNumber := seat }]
        ib.busId ib.travelDate
        (markCancelled (cbState s ib [seat]) s.bookingIdCounter
          { bookingOf s ib with status := "cancelled" })).tripSeatAvailability
        (tsaKey ({ t with availableSeats := t.availableSeats - 1 + 1 } : Trip).id seat)
      = some { tripId := t.id, seatNumber := seat, isAvailable := true } := by
    have h0 := cancelTripUpdate_tsa_single ib.busId ib.travelDate
        (markCancelled (cbState s ib [seat]) s.bookingIdCounter
          { bookingOf s ib with status := "cancelled" })
        { t with availableSeats := t.availableSeats - 1 }
        { id := s.bookingDetailIdCounter, bookingId := s.bookingIdCounter
        , seatNumber := seat } hft1'
    rw [h0]
    show mapGet (mapSet (cbState s ib [seat]).tripSeatAvailability (tsaKey t.id seat)
        { tripId := t.id, seatNumber := seat, isAvailable := true }) (tsaKey t.id seat) = _
    rw [mapGet_mapSet_self]
  -- decompose the precondition that the seat was reported available
  rw [reportedAvail_found s ib.busId ib.travelDate t seat hTrip] at hAvail
  cases hfsl : (getBusSeatLayout s ib.busId).find? (fun sl => sl.seatNumber == seat) with
  | none =>
    rw [hfsl] at hAvail
    simp at hAvail
  | some sl =>
    rw [hfsl] at hAvail
    simp only [Option.map_some', Option.some.injEq] at hAvail
    rw [Bool.and_eq_true] at hAvail
    obtain ⟨hA1, hA2⟩ := hAvail
    have hslseat : sl.seatNumber = seat := by
      have hq := List.find?_some hfsl
      simpa using hq
    rw [hslseat] at hA2
    refine ⟨_, hbwd, rfl, ?_, ?_⟩
    · show reportedAvail (cancelBooking (cbState s ib [seat]) s.bookingIdCounter).2
          ib.busId ib.travelDate seat = some true
      rw [hfinal]
      rw [reportedAvail_found _ ib.busId ib.travelDate
          { t with availableSeats := t.availableSeats - 1 + 1 } seat hfind2]
      rw [getBusSeatLayout_congr s _ ib.busId hS2sl]
      rw [hfsl]
      simp only [Option.map_some', Option.some.injEq]
      rw [hslseat]
      rw [hS2tsa, hbooked, hA2]
      rfl
    · show tripAvailOf (cancelBooking (cbState s ib [seat]) s.bookingIdCounter).2
          ib.busId ib.travelDate = some t.availableSeats
      exact hAvail2

/-- Witness for C5: seat "2A" of bus 1 on the freshly instantiated trip. -/
theorem C5_cancellation_round_trip_witness :
    ∃ bwd, (createBooking st0 ibA ["2A"]).1 = Except.ok bwd ∧
      bwd.id = st0.bookingIdCounter ∧
      reportedAvail (cancelBooking (createBooking st0 ibA ["2A"]).2 bwd.id).2
          ibA.busId ibA.travelDate "2A" = some true ∧
      tripAvailOf (cancelBooking (createBooking st0 ibA ["2A"]).2 bwd.id).2
          ibA.busId ibA.travelDate = some (30 : Int) :=
  C5_cancellation_round_trip st0 ibA "2A"
    { id := 1, busId := 1, date := d0, availableSeats := 30 }
    (by decide) (by decide) (by decide) (by decide)
